import Mathlib

/-!
# Verification of the `cwd` cellular war-driving tool

A shallow embedding of the core of the repository:

* `src/parser.py`   — the per-command response decoders (`parse_cell_info`,
  `parse_modem_info` and their helper decoders);
* `src/modem.py`    — the command executor (`execute_command` retry loop);
* `src/smart_config.py` — the smart configuration engine
  (check → set → verify with outcome counters).

Python dictionaries are modelled as insertion-ordered association lists
(`FieldMap`), Python exceptions as `Except`, the serial transport as an
oracle giving the outcome of each transmission attempt, and the modem seen
by the configurator as an oracle giving the `(success, response)` result of
each `execute_command` call.  All definitions are executable and translated
line by line from the Python source.
-/

/-! ## String helpers mirroring the Python primitives used by the source -/

/-- The whitespace characters stripped by Python's `str.strip()` (ASCII range;
the responses handled by the program are ASCII). -/
def isPyWs (c : Char) : Bool :=
  c = ' ' || c = '\t' || c = '\n' || c = '\r' || c = '\x0b' || c = '\x0c'

/-- Drop characters satisfying `p` from both ends of a character list. -/
def stripBoth (p : Char → Bool) (cs : List Char) : List Char :=
  ((cs.dropWhile p).reverse.dropWhile p).reverse

/-- Python `str.strip()` (whitespace strip). -/
def pyStrip (s : String) : String := String.mk (stripBoth isPyWs s.toList)

/-- Python `str.strip('"')` (strip all leading/trailing double quotes). -/
def pyStripQuotes (s : String) : String := String.mk (stripBoth (· = '"') s.toList)

/-- Python `str.lstrip("-")` (drop all leading hyphens). -/
def pyLstripDash (s : String) : String := String.mk (s.toList.dropWhile (· = '-'))

/-- Python `str.isdigit()` restricted to ASCII: nonempty and all decimal digits. -/
def strIsDigit (s : String) : Bool :=
  !s.toList.isEmpty && s.toList.all Char.isDigit

/-- Python `str.lower()` (ASCII case folding). -/
def pyLower (s : String) : String := String.mk (s.toList.map Char.toLower)

/-- Split a character list at every occurrence of `sep`
(Python `str.split(sep)` with a one-character separator). -/
def splitOnChar (sep : Char) : List Char → List (List Char)
  | [] => [[]]
  | c :: rest =>
    match splitOnChar sep rest with
    | [] => [[c]]
    | g :: gs => if c = sep then [] :: g :: gs else (c :: g) :: gs

/-- Python `s.split(sep)` for a one-character separator. -/
def pySplit (sep : Char) (s : String) : List String :=
  (splitOnChar sep s.toList).map String.mk

/-- First occurrence split helper for `str.split(sep, 1)`. -/
def splitFirstAux (sep : Char) : List Char → Option (List Char × List Char)
  | [] => none
  | c :: rest =>
    if c = sep then some ([], rest)
    else (splitFirstAux sep rest).map (fun p => (c :: p.1, p.2))

/-- Python `s.split(sep, 1)` for a one-character separator. -/
def pySplit1 (sep : Char) (s : String) : List String :=
  match splitFirstAux sep s.toList with
  | none => [s]
  | some (a, b) => [String.mk a, String.mk b]

/-- Substring test on character lists (Python's `pat in s`). -/
def listHasInfix (pat : List Char) : List Char → Bool
  | [] => pat.isEmpty
  | c :: rest => pat.isPrefixOf (c :: rest) || listHasInfix pat rest

/-- Python `pat in s` substring containment. -/
def strHasInfix (pat s : String) : Bool := listHasInfix pat.toList s.toList

/-- Python `s.startswith(pre)`. -/
def strStarts (pre s : String) : Bool := pre.toList.isPrefixOf s.toList

/-- Numeric value of an ASCII digit. -/
def digitVal (c : Char) : Nat := c.toNat - Char.toNat '0'

/-- Decimal digit run with the single-underscore grouping Python's `int`
accepts (`int("1_0") = 10`); first character must be a digit. -/
def digitsUnd (acc : Nat) : List Char → Option Nat
  | [] => some acc
  | '_' :: c :: rest =>
      if c.isDigit then digitsUnd (acc * 10 + digitVal c) rest else none
  | '_' :: [] => none
  | c :: rest =>
      if c.isDigit then digitsUnd (acc * 10 + digitVal c) rest else none

/-- Parse a nonempty decimal digit run (underscore grouping allowed). -/
def natCore : List Char → Option Nat
  | [] => none
  | c :: rest => if c.isDigit then digitsUnd (digitVal c) rest else none

/-- Python `int(s)` (base 10): strip whitespace, optional sign, digit run;
`none` models the `ValueError` raised on anything else. -/
def pyInt (s : String) : Option Int :=
  match stripBoth isPyWs s.toList with
  | '+' :: rest => (natCore rest).map Int.ofNat
  | '-' :: rest => (natCore rest).map (fun n => -(n : Int))
  | rest => (natCore rest).map Int.ofNat

/-- Value of an ASCII hexadecimal digit. -/
def hexVal (c : Char) : Option Nat :=
  if c.isDigit then
    some (digitVal c)
  else if 'a' ≤ c && c ≤ 'f' then
    some (c.toNat + 10 - Char.toNat 'a')
  else if 'A' ≤ c && c ≤ 'F' then
    some (c.toNat + 10 - Char.toNat 'A')
  else
    none

/-- Hexadecimal digit run (underscore grouping allowed as in Python). -/
def hexDigitsUnd (acc : Nat) : List Char → Option Nat
  | [] => some acc
  | '_' :: c :: rest =>
      (hexVal c).bind (fun v => hexDigitsUnd (acc * 16 + v) rest)
  | c :: rest =>
      match hexVal c with
      | some v => hexDigitsUnd (acc * 16 + v) rest
      | none => none

/-- Parse a nonempty hexadecimal digit run. -/
def hexCore : List Char → Option Nat
  | [] => none
  | '_' :: _ => none
  | c :: rest => (hexVal c).bind (fun v => hexDigitsUnd v rest)

/-- Python `int(s, 16)` as used by the source (the argument is known to start
with `0x`): strip whitespace, `0x`/`0X` marker, hex digits (underscore
grouping after the marker allowed, as Python accepts `int("0x_1a", 16)`). -/
def pyIntHex (s : String) : Option Int :=
  match stripBoth isPyWs s.toList with
  | '0' :: 'x' :: '_' :: rest => (hexCore rest).map Int.ofNat
  | '0' :: 'x' :: rest => (hexCore rest).map Int.ofNat
  | '0' :: 'X' :: '_' :: rest => (hexCore rest).map Int.ofNat
  | '0' :: 'X' :: rest => (hexCore rest).map Int.ofNat
  | rest => (hexCore rest).map Int.ofNat

/-- `int(v, 16) if v.startswith("0x") else int(v)` from
`_parse_network_registration`. -/
def pyIntAuto (s : String) : Option Int :=
  if strStarts "0x" s then pyIntHex s else pyInt s

/-- Python truthiness for list indexing `xs[i]` guarded by a length test:
the source only indexes after checking `len(xs) >= i+1`. -/
def getS (xs : List String) (i : Nat) : String := xs.getD i ""

/-! ## FieldMap: the Python dict of parsed fields

`parse_cell_info` / `parse_modem_info` build a `dict` whose values are
strings, ints, the two float-valued fields of `_parse_extended_signal_quality`
(modelled exactly by rationals, the computed values being halves), bools,
a list of neighbour-cell records, or a list of strings.  A Python dict is
insertion ordered: assignment to a present key overwrites in place,
assignment to a fresh key appends. -/

/-- One neighbour-cell record built by `_parse_quectel_neighbor_cells`.
The `type` and `rat` keys are always set (`rat` is `None` when no
`neighbourcell` header line preceded); every other key is set only by the
branch for the corresponding radio technology. -/
structure Cell where
  ctype : String
  rat : Option String
  arfcn : Option Int := none
  bsic : Option Int := none
  rxlev : Option Int := none
  uarfcn : Option Int := none
  psc : Option Int := none
  rscp : Option Int := none
  ecno : Option Int := none
  earfcn : Option Int := none
  pcid : Option Int := none
  rsrp : Option Int := none
  rsrq : Option Int := none
  rssi : Option Int := none
  sinr : Option Int := none
  deriving DecidableEq, Repr

/-- A scalar (or list) value stored in a parsed field map. -/
inductive Value where
  | s (v : String)
  | i (v : Int)
  | q (v : ℚ)
  | b (v : Bool)
  | cells (v : List Cell)
  | sl (v : List String)
  deriving DecidableEq, Repr

/-- An insertion-ordered association list modelling a Python dict. -/
abbrev FieldMap := List (String × Value)

/-- Python dict assignment `m[k] = v`: overwrite in place or append. -/
def fmInsert (k : String) (v : Value) : FieldMap → FieldMap
  | [] => [(k, v)]
  | p :: rest => if p.1 = k then (k, v) :: rest else p :: fmInsert k v rest

/-- Python dict lookup. -/
def fmLookup (k : String) : FieldMap → Option Value
  | [] => none
  | p :: rest => if p.1 = k then some p.2 else fmLookup k rest

/-! ## Interrupted `try` blocks

Each decoder wraps a run of field extractions in one
`try: ... except (ValueError, IndexError): pass`.  A failing `int()` call
keeps the writes already committed and abandons the rest of the block.  We
model the block as a list of steps, each either continuing with an updated
map or halting with the map as committed so far. -/

/-- Result of one statement inside a decoder's `try` block. -/
inductive TryRes where
  | cont (r : FieldMap)
  | halt (r : FieldMap)

/-- Run the statements of a `try` block in order; a `halt` (a raised
`ValueError`) abandons the remaining statements. -/
def runTry : List (FieldMap → TryRes) → FieldMap → FieldMap
  | [], r => r
  | f :: fs, r =>
    match f r with
    | .cont r' => runTry fs r'
    | .halt r' => r'

/-- A step commutes with an untouched head entry. -/
def StepCons (p : String × Value) (f : FieldMap → TryRes) : Prop :=
  ∀ r, f (p :: r) =
    (match f r with
     | .cont r' => .cont (p :: r')
     | .halt r' => .halt (p :: r'))

/-- Iterate a per-line decoder step over the response lines
(the `for line in lines:` loops of the decoders). -/
def foldLines (step : String → FieldMap → FieldMap) :
    List String → FieldMap → FieldMap
  | [], r => r
  | l :: ls, r => foldLines step ls (step l r)

/-- Iterate a per-line decoder step that can raise
(`_parse_network_registration` is the one decoder whose status-field
`int()` conversion is not guarded by a `try`). -/
def foldLinesE (step : String → FieldMap → Except String FieldMap) :
    List String → FieldMap → Except String FieldMap
  | [], r => .ok r
  | l :: ls, r =>
    match step l r with
    | .error e => .error e
    | .ok r' => foldLinesE step ls r'

/-! ## Step builders shared by the decoders

Each Python statement pattern inside a decoder's `try` block becomes one
builder: a plain dict write, a conditional write, and an `int()` conversion
followed by writes (halting the block when the conversion raises). -/

/-- `result[k] = v` (cannot raise). -/
def wStep (k : String) (v : Value) : FieldMap → TryRes :=
  fun r => .cont (fmInsert k v r)

/-- `if g: result[k] = v`. -/
def wStepIf (g : Bool) (k : String) (v : Value) : FieldMap → TryRes :=
  fun r => if g then .cont (fmInsert k v r) else .cont r

/-- `x = parse(v)` (raising `ValueError` on failure) followed by the writes
`upd x`. -/
def tryIntStep (parse : String → Option Int) (v : String)
    (upd : Int → FieldMap → FieldMap) : FieldMap → TryRes :=
  fun r =>
    match parse v with
    | none => .halt r
    | some n => .cont (upd n r)

/-- `if g: x = parse(v); upd x` — the guard is evaluated without raising. -/
def tryIntStepIf (g : Bool) (parse : String → Option Int) (v : String)
    (upd : Int → FieldMap → FieldMap) : FieldMap → TryRes :=
  fun r => if g then tryIntStep parse v upd r else .cont r

/-- `if g and x.isdigit(): result[k] = int(x)` (serving-cell style field). -/
def digitIntStep (g : Bool) (x : String) (k : String) : FieldMap → TryRes :=
  tryIntStepIf (g && strIsDigit x) pyInt x (fun n r => fmInsert k (.i n) r)

/-- `if g and x.lstrip("-").isdigit(): result[k] = int(x)` — note `int(x)` can
still raise for inputs such as `"--5"`. -/
def dashIntStep (g : Bool) (x : String) (k : String) : FieldMap → TryRes :=
  tryIntStepIf (g && strIsDigit (pyLstripDash x)) pyInt x
    (fun n r => fmInsert k (.i n) r)

/-! ## Enumeration label tables (`parser.py`) -/

/-- Access-technology labels (the table appears twice in the source, at
lines 74–103 and 262–291, with identical entries). -/
def actLabel (act : Int) : String :=
  if act = 0 then "GSM"
  else if act = 1 then "GSM Compact"
  else if act = 2 then "UTRAN"
  else if act = 3 then "GSM w/EGPRS"
  else if act = 4 then "UTRAN w/HSDPA"
  else if act = 5 then "UTRAN w/HSUPA"
  else if act = 6 then "UTRAN w/HSDPA and HSUPA"
  else if act = 7 then "E-UTRAN"
  else if act = 8 then "EC-GSM-IoT"
  else if act = 9 then "E-UTRAN (NB-S1 mode)"
  else if act = 10 then "E-UTRA connected to a 5GCN"
  else if act = 11 then "NR connected to a 5GCN"
  else if act = 12 then "NG-RAN"
  else if act = 13 then "E-UTRA-NR dual connectivity"
  else "Unknown (" ++ toString act ++ ")"

/-- Registration-status labels (`_parse_network_registration`). -/
def regStatusLabel (code : Int) : String :=
  if code = 0 then "Not registered, not searching"
  else if code = 1 then "Registered, home network"
  else if code = 2 then "Not registered, searching"
  else if code = 3 then "Registration denied"
  else if code = 4 then "Unknown"
  else if code = 5 then "Registered, roaming"
  else "Unknown status (" ++ toString code ++ ")"

/-- Operator-selection-mode labels (`_parse_current_operator`). -/
def opSelModeLabel (mode : Int) : String :=
  if mode = 0 then "Automatic"
  else if mode = 1 then "Manual"
  else if mode = 2 then "Manual deregister"
  else if mode = 3 then "Set only format"
  else if mode = 4 then "Manual/Automatic"
  else "Unknown (" ++ toString mode ++ ")"

/-- Operator-format labels (`_parse_current_operator`). -/
def opFormatLabel (f : Int) : String :=
  if f = 0 then "Long alphanumeric"
  else if f = 1 then "Short alphanumeric"
  else if f = 2 then "Numeric"
  else "Unknown (" ++ toString f ++ ")"

/-- Functionality labels (`_parse_functionality_status`). -/
def funLabel (f : Int) : String :=
  if f = 0 then "Minimum"
  else if f = 1 then "Full"
  else if f = 2 then "Disabled"
  else if f = 3 then "Disabled phone Tx and Rx"
  else if f = 4 then "Disabled phone Tx and Rx, standalone GPS"
  else if f = 5 then "Factory Test"
  else if f = 6 then "Offline"
  else if f = 7 then "Offline factory test"
  else "Unknown (" ++ toString f ++ ")"

/-- PLMN-selector labels (`parse_modem_info`, `AT+CPLS?` branch; keyed by the
raw string value). -/
def plmnSelectorLabel (v : String) : String :=
  if v = "0" then "User controlled PLMN selector with access technology"
  else if v = "1" then "Operator controlled PLMN selector with access technology"
  else if v = "2" then "HPLMN selector with access technology"
  else "Unknown (" ++ v ++ ")"

/-! ## The decoders of `parser.py` -/

/-- The `command.startswith` dispatch at the top of
`_parse_network_registration` (parser.py lines 23–33), returning the
`technology` label and the registration marker. -/
def regTech (command : String) : Option (String × String) :=
  if strStarts "AT+CREG?" command then some ("GSM", "+CREG:")
  else if strStarts "AT+CGREG?" command then some ("UMTS", "+CGREG:")
  else if strStarts "AT+CEREG?" command then some ("LTE", "+CEREG:")
  else none

/-- The location `try` block of `_parse_network_registration`
(parser.py lines 61–105): LAC, cell id, and optional access technology.
A `ValueError` here is caught and keeps the writes already made. -/
def regLocation (parts : List String) (r : FieldMap) : FieldMap :=
  runTry [
    tryIntStep pyIntAuto (pyStripQuotes (pyStrip (getS parts 2)))
      (fun n r => fmInsert "lac" (.i n) r),
    tryIntStep pyIntAuto (pyStripQuotes (pyStrip (getS parts 3)))
      (fun n r => fmInsert "cell_id" (.i n) r),
    tryIntStepIf (decide (parts.length ≥ 5)) pyInt (pyStrip (getS parts 4))
      (fun n r => fmInsert "access_technology" (.s (actLabel n)) r)
  ] r

/-- The registration-status extraction of `_parse_network_registration`
(parser.py lines 41–58).  `int(status_part)` at line 43 is **not** inside a
`try`, so a non-numeric status field raises a `ValueError` that escapes the
decoder. -/
def regStatusPart (parts : List String) (r : FieldMap) : Except String FieldMap :=
  if parts.length ≥ 2 then
    match pyInt (pyStrip (getS parts 1)) with
    | none =>
        .error ("ValueError: invalid literal for int() with base 10: " ++
          pyStrip (getS parts 1))
    | some code => .ok (fmInsert "registration_status" (.s (regStatusLabel code)) r)
  else .ok r

/-- One line of the `_parse_network_registration` loop
(parser.py lines 36–105). -/
def regStep (rp : String) (line : String) (r : FieldMap) : Except String FieldMap :=
  if strHasInfix rp line then
    (regStatusPart (pySplit ',' line) r).map
      (fun r1 =>
        if (pySplit ',' line).length ≥ 4 then regLocation (pySplit ',' line) r1
        else r1)
  else .ok r

/-- `_parse_network_registration` (parser.py lines 13–105). -/
def parse_network_registration (command : String) (lines : List String)
    (r : FieldMap) : Except String FieldMap :=
  match regTech command with
  | none => .ok r
  | some (tech, rp) =>
      foldLinesE (regStep rp) lines (fmInsert "technology" (.s tech) r)

/-- One line of `_parse_signal_quality` (parser.py lines 116–139). -/
def csqStep (line : String) (r : FieldMap) : FieldMap :=
  if strHasInfix "+CSQ:" line then
    match pySplit ':' line with
    | _ :: p1 :: _ =>
      let values := pySplit ',' (pyStrip p1)
      if values.length ≥ 2 then
        runTry [
          tryIntStep pyInt (getS values 0) (fun n r =>
            if n < 99 then
              fmInsert "rssi_raw" (.i n) (fmInsert "rssi" (.i (-113 + 2 * n)) r)
            else
              fmInsert "rssi_raw" (.i 99) (fmInsert "rssi" (.s "unknown") r)),
          tryIntStep pyInt (getS values 1) (fun n r =>
            if n < 7 then fmInsert "ber" (.i n) r
            else fmInsert "ber" (.s "unknown") r)
        ] r
      else r
    | _ => r
  else r

/-- `_parse_signal_quality` (parser.py lines 108–139). -/
def parse_signal_quality (lines : List String) (r : FieldMap) : FieldMap :=
  foldLines csqStep lines r

/-- One line of `_parse_extended_signal_quality` (parser.py lines 150–192). -/
def cesqStep (line : String) (r : FieldMap) : FieldMap :=
  if strHasInfix "+CESQ:" line then
    match pySplit ':' line with
    | _ :: p1 :: _ =>
      let values := pySplit ',' (pyStrip p1)
      if values.length ≥ 6 then
        runTry [
          tryIntStep pyInt (getS values 0) (fun n r =>
            if n < 99 then
              fmInsert "rxlev_raw" (.i n) (fmInsert "rxlev" (.i (-111 + n)) r)
            else r),
          tryIntStep pyInt (getS values 1) (fun n r =>
            if n < 99 then fmInsert "ber_extended" (.i n) r else r),
          tryIntStep pyInt (getS values 2) (fun n r =>
            if n < 127 then
              fmInsert "rscp_raw" (.i n) (fmInsert "rscp" (.i (-121 + n)) r)
            else r),
          tryIntStep pyInt (getS values 3) (fun n r =>
            if n < 99 then
              fmInsert "ecno_raw" (.i n)
                (fmInsert "ecno" (.q (-24.5 + 0.5 * (n : ℚ))) r)
            else r),
          tryIntStep pyInt (getS values 4) (fun n r =>
            if n < 99 then
              fmInsert "rsrq_raw" (.i n)
                (fmInsert "rsrq" (.q (-20 + (n : ℚ) * 0.5)) r)
            else r),
          tryIntStep pyInt (getS values 5) (fun n r =>
            if n < 99 then
              fmInsert "rsrp_raw" (.i n) (fmInsert "rsrp" (.i (-141 + n)) r)
            else r)
        ] r
      else r
    | _ => r
  else r

/-- `_parse_extended_signal_quality` (parser.py lines 142–192). -/
def parse_extended_signal_quality (lines : List String) (r : FieldMap) : FieldMap :=
  foldLines cesqStep lines r

/-- One line of `_parse_gprs_attachment` (parser.py lines 203–212). -/
def cgattStep (line : String) (r : FieldMap) : FieldMap :=
  if strHasInfix "+CGATT:" line then
    match pySplit ':' line with
    | _ :: p1 :: _ =>
      runTry [
        tryIntStep pyInt (pyStrip p1) (fun n r =>
          fmInsert "gprs_status" (.s (if n = 1 then "Attached" else "Detached"))
            (fmInsert "gprs_attached" (.b (n = 1)) r))
      ] r
    | _ => r
  else r

/-- `_parse_gprs_attachment` (parser.py lines 195–212). -/
def parse_gprs_attachment (lines : List String) (r : FieldMap) : FieldMap :=
  foldLines cgattStep lines r

/-- One line of `_parse_current_operator` (parser.py lines 223–293). -/
def copsStep (line : String) (r : FieldMap) : FieldMap :=
  if strHasInfix "+COPS:" line then
    match pySplit ':' line with
    | _ :: p1 :: _ =>
      let values := pySplit ',' (pyStrip p1)
      if values.length ≥ 3 then
        runTry [
          tryIntStep pyInt (getS values 0) (fun n r =>
            fmInsert "operator_selection_mode" (.s (opSelModeLabel n)) r),
          tryIntStep pyInt (getS values 1) (fun n r =>
            fmInsert "operator_format" (.s (opFormatLabel n)) r),
          wStep "operator" (.s (pyStripQuotes (getS values 2))),
          tryIntStepIf (decide (values.length ≥ 4)) pyInt (getS values 3)
            (fun n r => fmInsert "act" (.s (actLabel n)) r)
        ] r
      else r
    | _ => r
  else r

/-- `_parse_current_operator` (parser.py lines 215–293). -/
def parse_current_operator (lines : List String) (r : FieldMap) : FieldMap :=
  foldLines copsStep lines r

/-- One line of `_parse_functionality_status` (parser.py lines 304–329). -/
def cfunStep (line : String) (r : FieldMap) : FieldMap :=
  if strHasInfix "+CFUN:" line then
    match pySplit ':' line with
    | _ :: p1 :: _ =>
      runTry [
        tryIntStep pyInt (pyStrip p1) (fun n r =>
          fmInsert "functionality" (.s (funLabel n)) r)
      ] r
    | _ => r
  else r

/-- `_parse_functionality_status` (parser.py lines 296–329). -/
def parse_functionality_status (lines : List String) (r : FieldMap) : FieldMap :=
  foldLines cfunStep lines r

/-- One line of `_parse_real_time_clock` (parser.py lines 340–352); the
`try` block only assigns a string, so it cannot raise. -/
def cclkStep (line : String) (r : FieldMap) : FieldMap :=
  if strHasInfix "+CCLK:" line then
    match pySplit ':' line with
    | _ :: p1 :: _ =>
        fmInsert "modem_time" (.s (pyStripQuotes (pyStrip p1))) r
    | _ => r
  else r

/-- `_parse_real_time_clock` (parser.py lines 332–352). -/
def parse_real_time_clock (lines : List String) (r : FieldMap) : FieldMap :=
  foldLines cclkStep lines r

/-- A `+QCSQ` field: `if len(values) >= i+1: x = values[i].strip();
if x and x != "": result[k] = int(x)` (parser.py lines 379–428). -/
def qcsqField (values : List String) (i : Nat) (k : String) : FieldMap → TryRes :=
  tryIntStepIf (decide (values.length ≥ i + 1) && (pyStrip (getS values i) != ""))
    pyInt (pyStrip (getS values i)) (fun n r => fmInsert k (.i n) r)

/-- One line of `_parse_quectel_signal_quality` (parser.py lines 362–430). -/
def qcsqStep (line : String) (r : FieldMap) : FieldMap :=
  if strHasInfix "+QCSQ:" line then
    match pySplit1 ':' line with
    | _ :: p1 :: _ =>
      let values := pySplit ',' (pyStrip p1)
      if values.isEmpty then r
      else
        let sysmode := pyStripQuotes (getS values 0)
        runTry
          ([wStepIf (decide (values.length ≥ 1)) "qcsq_sysmode" (.s sysmode)] ++
           (if sysmode = "GSM" then
              [qcsqField values 1 "rssi"]
            else if sysmode = "WCDMA" then
              [qcsqField values 1 "rssi", qcsqField values 2 "rscp",
               qcsqField values 3 "ecno"]
            else if sysmode = "LTE" || sysmode = "CAT-M" || sysmode = "NB-IoT" then
              [qcsqField values 1 "rssi", qcsqField values 2 "rsrp",
               qcsqField values 3 "rsrq", qcsqField values 4 "sinr"]
            else if sysmode = "5G" then
              [qcsqField values 1 "rsrp", qcsqField values 2 "sinr",
               qcsqField values 3 "rsrq"]
            else [])) r
    | _ => r
  else r

/-- `_parse_quectel_signal_quality` (parser.py lines 354–430). -/
def parse_quectel_signal_quality (lines : List String) (r : FieldMap) : FieldMap :=
  foldLines qcsqStep lines r

/-- One line of `_parse_quectel_network_info` (parser.py lines 441–475). -/
def qnwinfoStep (line : String) (r : FieldMap) : FieldMap :=
  if strHasInfix "+QNWINFO:" line then
    match pySplit1 ':' line with
    | _ :: p1 :: _ =>
      let values := pySplit ',' (pyStrip p1)
      if values.length < 4 then r
      else
        runTry [
          wStepIf (pyStripQuotes (getS values 0) != "") "network_type"
            (.s (pyStripQuotes (getS values 0))),
          wStepIf (decide (values.length ≥ 2) && (pyStripQuotes (getS values 1) != ""))
            "network_operator" (.s (pyStripQuotes (getS values 1))),
          wStepIf (decide (values.length ≥ 3) && (pyStripQuotes (getS values 2) != ""))
            "band" (.s (pyStripQuotes (getS values 2))),
          tryIntStepIf (decide (values.length ≥ 4) && (pyStrip (getS values 3) != "") &&
              strIsDigit (pyStrip (getS values 3)))
            pyInt (pyStrip (getS values 3)) (fun n r => fmInsert "channel" (.i n) r)
        ] r
    | _ => r
  else r

/-- `_parse_quectel_network_info` (parser.py lines 433–475). -/
def parse_quectel_network_info (lines : List String) (r : FieldMap) : FieldMap :=
  foldLines qnwinfoStep lines r

/-- One line of `_parse_quectel_serving_cell` (parser.py lines 486–606). -/
def qengServStep (line : String) (r : FieldMap) : FieldMap :=
  if strHasInfix "+QENG:" line && strHasInfix "servingcell" (pyLower line) then
    match pySplit1 ':' line with
    | _ :: p1 :: _ =>
      let values := pySplit ',' (pyStrip p1)
      if values.length < 3 then r
      else if decide (values.length ≥ 1) && (pyStrip (getS values 0) == "servingcell") then
        let rat_type := pyStripQuotes (getS values 1)
        runTry
          ([wStep "rat_type" (.s rat_type)] ++
           (if rat_type = "GSM" then
              [wStepIf (decide (values.length ≥ 4)) "mcc" (.s (pyStripQuotes (getS values 3))),
               wStepIf (decide (values.length ≥ 5)) "mnc" (.s (pyStripQuotes (getS values 4))),
               digitIntStep (decide (values.length ≥ 7)) (pyStrip (getS values 6)) "lac",
               digitIntStep (decide (values.length ≥ 8)) (pyStrip (getS values 7)) "cell_id",
               digitIntStep (decide (values.length ≥ 9)) (pyStrip (getS values 8)) "bsic",
               digitIntStep (decide (values.length ≥ 10)) (pyStrip (getS values 9)) "arfcn",
               digitIntStep (decide (values.length ≥ 11)) (pyStrip (getS values 10)) "rxlev"]
            else if rat_type = "WCDMA" then
              [wStepIf (decide (values.length ≥ 4)) "mcc" (.s (pyStripQuotes (getS values 3))),
               wStepIf (decide (values.length ≥ 5)) "mnc" (.s (pyStripQuotes (getS values 4))),
               digitIntStep (decide (values.length ≥ 7)) (pyStrip (getS values 6)) "lac",
               digitIntStep (decide (values.length ≥ 8)) (pyStrip (getS values 7)) "cell_id",
               digitIntStep (decide (values.length ≥ 9)) (pyStrip (getS values 8)) "uarfcn",
               digitIntStep (decide (values.length ≥ 10)) (pyStrip (getS values 9)) "psc",
               digitIntStep (decide (values.length ≥ 11)) (pyStrip (getS values 10)) "rscp",
               digitIntStep (decide (values.length ≥ 12)) (pyStrip (getS values 11)) "ecno"]
            else if rat_type = "LTE" || rat_type = "CAT-M" || rat_type = "NB-IoT" then
              [wStepIf (decide (values.length ≥ 4)) "mcc" (.s (pyStripQuotes (getS values 3))),
               wStepIf (decide (values.length ≥ 5)) "mnc" (.s (pyStripQuotes (getS values 4))),
               digitIntStep (decide (values.length ≥ 7)) (pyStrip (getS values 6)) "tac",
               digitIntStep (decide (values.length ≥ 8)) (pyStrip (getS values 7)) "cell_id",
               digitIntStep (decide (values.length ≥ 9)) (pyStrip (getS values 8)) "pcid",
               digitIntStep (decide (values.length ≥ 10)) (pyStrip (getS values 9)) "earfcn",
               wStepIf (decide (values.length ≥ 11)) "band_num" (.s (pyStrip (getS values 10))),
               digitIntStep (decide (values.length ≥ 12)) (pyStrip (getS values 11)) "bandwidth",
               dashIntStep (decide (values.length ≥ 13)) (pyStrip (getS values 12)) "rsrp",
               dashIntStep (decide (values.length ≥ 14)) (pyStrip (getS values 13)) "rsrq",
               dashIntStep (decide (values.length ≥ 15)) (pyStrip (getS values 14)) "rssi",
               dashIntStep (decide (values.length ≥ 16)) (pyStrip (getS values 15)) "sinr"]
            else [])) r
      else r
    | _ => r
  else r

/-- `_parse_quectel_serving_cell` (parser.py lines 478–606). -/
def parse_quectel_serving_cell (lines : List String) (r : FieldMap) : FieldMap :=
  foldLines qengServStep lines r

/-- `if g and x.isdigit(): cell[k] = int(x)` on a neighbour-cell record. -/
def cellDigitStep (g : Bool) (x : String) (upd : Int → Cell → Cell)
    (c : Cell) : Option Cell :=
  if g && strIsDigit x then (pyInt x).map (fun n => upd n c) else some c

/-- `if g and x.lstrip("-").isdigit(): cell[k] = int(x)`; `int(x)` can still
raise (e.g. `x = "--5"`), which discards the half-built cell. -/
def cellDashStep (g : Bool) (x : String) (upd : Int → Cell → Cell)
    (c : Cell) : Option Cell :=
  if g && strIsDigit (pyLstripDash x) then (pyInt x).map (fun n => upd n c)
  else some c

/-- The `intra` branch of `_parse_quectel_neighbor_cells`
(parser.py lines 633–695): build one cell record; a raised `ValueError`
yields `none` and the record is never appended. -/
def buildIntraCell (rat : Option String) (values : List String) : Option Cell :=
  let c : Cell := { ctype := "intra", rat := rat }
  if rat = some "GSM" then
    (cellDigitStep (decide (values.length ≥ 2)) (pyStrip (getS values 1))
        (fun n c => { c with arfcn := some n }) c).bind
      (fun c => (cellDigitStep (decide (values.length ≥ 3)) (pyStrip (getS values 2))
        (fun n c => { c with bsic := some n }) c).bind
      (fun c => cellDigitStep (decide (values.length ≥ 4)) (pyStrip (getS values 3))
        (fun n c => { c with rxlev := some n }) c))
  else if rat = some "WCDMA" then
    (cellDigitStep (decide (values.length ≥ 2)) (pyStrip (getS values 1))
        (fun n c => { c with uarfcn := some n }) c).bind
      (fun c => (cellDigitStep (decide (values.length ≥ 3)) (pyStrip (getS values 2))
        (fun n c => { c with psc := some n }) c).bind
      (fun c => (cellDigitStep (decide (values.length ≥ 4)) (pyStrip (getS values 3))
        (fun n c => { c with rscp := some n }) c).bind
      (fun c => cellDigitStep (decide (values.length ≥ 5)) (pyStrip (getS values 4))
        (fun n c => { c with ecno := some n }) c)))
  else if rat = some "LTE" || rat = some "CAT-M" || rat = some "NB-IoT" then
    (cellDigitStep (decide (values.length ≥ 2)) (pyStrip (getS values 1))
        (fun n c => { c with earfcn := some n }) c).bind
      (fun c => (cellDigitStep (decide (values.length ≥ 3)) (pyStrip (getS values 2))
        (fun n c => { c with pcid := some n }) c).bind
      (fun c => (cellDashStep (decide (values.length ≥ 4)) (pyStrip (getS values 3))
        (fun n c => { c with rsrp := some n }) c).bind
      (fun c => (cellDashStep (decide (values.length ≥ 5)) (pyStrip (getS values 4))
        (fun n c => { c with rsrq := some n }) c).bind
      (fun c => (cellDashStep (decide (values.length ≥ 6)) (pyStrip (getS values 5))
        (fun n c => { c with rssi := some n }) c).bind
      (fun c => cellDashStep (decide (values.length ≥ 7)) (pyStrip (getS values 6))
        (fun n c => { c with sinr := some n }) c)))))
  else some c

/-- One line of `_parse_quectel_neighbor_cells` (parser.py lines 620–706):
threads the current RAT header and the accumulated cell list. -/
def neighborLineStep (st : Option String × List Cell) (line : String) :
    Option String × List Cell :=
  if strHasInfix "+QENG:" line then
    match pySplit1 ':' line with
    | _ :: p1 :: _ =>
      let values := pySplit ',' (pyStrip p1)
      if values.length < 2 then st
      else
        let v0 := pyStrip (getS values 0)
        if v0 = "neighbourcell" then (some (pyStripQuotes (getS values 1)), st.2)
        else if v0 = "intra" then
          match buildIntraCell st.1 values with
          | some cell => (st.1, st.2 ++ [cell])
          | none => st
        else if v0 = "inter" then (st.1, st.2 ++ [{ ctype := "inter", rat := st.1 }])
        else st
    | _ => st
  else st

/-- `_parse_quectel_neighbor_cells` (parser.py lines 609–709): the result map
is touched only by the final conditional insert of the accumulated list. -/
def parse_quectel_neighbor_cells (lines : List String) (r : FieldMap) : FieldMap :=
  let st := lines.foldl neighborLineStep (none, [])
  if st.2.isEmpty then r else fmInsert "neighbor_cells" (.cells st.2) r

/-- The inline `AT+QSPN` branch of `parse_cell_info`
(parser.py lines 869–882); no `int()` conversion, cannot raise. -/
def qspnStep (line : String) (r : FieldMap) : FieldMap :=
  if strHasInfix "+QSPN:" line then
    match pySplit1 ':' line with
    | _ :: p1 :: _ =>
      let values := pySplit ',' (pyStrip p1)
      let r := if values.length ≥ 1 then
          fmInsert "operator_full" (.s (pyStripQuotes (getS values 0))) r else r
      let r := if values.length ≥ 2 then
          fmInsert "operator_short" (.s (pyStripQuotes (getS values 1))) r else r
      if values.length ≥ 4 then
        fmInsert "spn_mnc" (.s (pyStripQuotes (getS values 3)))
          (fmInsert "spn_mcc" (.s (pyStripQuotes (getS values 2))) r)
      else r
    | _ => r
  else r

/-- The inline `AT+QNETINFO` branch of `parse_cell_info`
(parser.py lines 884–900); raw string payloads, cannot raise. -/
def qnetinfoStep (line : String) (r : FieldMap) : FieldMap :=
  if strHasInfix "+QNETINFO:" line then
    match pySplit1 ':' line with
    | _ :: p1 :: _ =>
      let values := pySplit ',' (pyStrip p1)
      if values.length ≥ 3 then
        if getS values 0 == "2" && getS values 1 == "1" then
          (if decide (values.length ≥ 3) && (pyStrip (getS values 2) != "") then
            fmInsert "rsssnr" (.s (pyStrip (getS values 2))) r else r)
        else if getS values 0 == "2" && getS values 1 == "2" then
          (if decide (values.length ≥ 3) && (pyStrip (getS values 2) != "") then
            fmInsert "timing_advance" (.s (pyStrip (getS values 2))) r else r)
        else if getS values 0 == "2" && getS values 1 == "4" then
          (if decide (values.length ≥ 3) && (pyStrip (getS values 2) != "") then
            fmInsert "drx" (.s (pyStrip (getS values 2))) r else r)
        else r
      else r
    | _ => r
  else r

/-! ## The two dispatchers of `parser.py` -/

/-- The shared preprocessing of `parse_cell_info` / `parse_modem_info`
(parser.py lines 725–732 and 814–821): split into stripped nonempty lines,
drop a leading command echo, drop a trailing bare `OK`. -/
def preprocessLines (command response : String) : List String :=
  let ls := ((pySplit '\n' response).map pyStrip).filter (fun l => l ≠ "")
  let ls :=
    match ls with
    | l0 :: rest => if l0 = pyStrip command then rest else l0 :: rest
    | [] => []
  if ls.getLast? = some "OK" then ls.dropLast else ls

/-- The `command.startswith` dispatch chain of `parse_cell_info`
(parser.py lines 824–900), parameterized by the already-initialized result
map `r`: each branch hands `lines` and `r` to its decoder; an unmatched
command leaves `r` unchanged. -/
def cellDispatch (command : String) (lines : List String) (r : FieldMap) :
    Except String FieldMap :=
  if strStarts "AT+CREG?" command || strStarts "AT+CGREG?" command ||
      strStarts "AT+CEREG?" command then
    parse_network_registration command lines r
  else if strStarts "AT+CSQ" command then .ok (parse_signal_quality lines r)
  else if strStarts "AT+CESQ" command then .ok (parse_extended_signal_quality lines r)
  else if strStarts "AT+CGATT?" command then .ok (parse_gprs_attachment lines r)
  else if strStarts "AT+COPS?" command then .ok (parse_current_operator lines r)
  else if strStarts "AT+CFUN?" command then .ok (parse_functionality_status lines r)
  else if strStarts "AT+CCLK?" command then .ok (parse_real_time_clock lines r)
  else if strStarts "AT+QCSQ" command then .ok (parse_quectel_signal_quality lines r)
  else if strStarts "AT+QNWINFO" command then .ok (parse_quectel_network_info lines r)
  else if strStarts "AT+QENG=\"servingcell\"" command then
    .ok (parse_quectel_serving_cell lines r)
  else if strStarts "AT+QENG=\"neighbourcell\"" command then
    .ok (parse_quectel_neighbor_cells lines r)
  else if strStarts "AT+QSPN" command then .ok (foldLines qspnStep lines r)
  else if strStarts "AT+QNETINFO" command then .ok (foldLines qnetinfoStep lines r)
  else .ok r

/-- `parse_cell_info` (parser.py lines 797–902): start the result map with
the `timestamp` entry, preprocess the raw text, and dispatch on the command
(`cellDispatch`).  The wall-clock reading `datetime.now().isoformat()` of
line 809 is the explicit parameter `now`; the result is `Except` because
`_parse_network_registration` can raise (see `regStatusPart`). -/
def parse_cell_info (command response now : String) :
    Except String FieldMap :=
  cellDispatch command (preprocessLines command response)
    (fmInsert "timestamp" (.s now) [])

/-- `lines[0].split(pat)[1]` for a multi-character separator, defined when
`pat` occurs in the string (the `AT+CICCID` branch guards on containment):
the text between the first and second occurrence of `pat`. -/
def splitTake1 (pat s : String) : String :=
  match listIdxOf pat.toList s.toList with
  | none => ""
  | some i =>
    let rest := s.toList.drop (i + pat.toList.length)
    match listIdxOf pat.toList rest with
    | none => String.mk rest
    | some j => String.mk (rest.take j)
where
  /-- index of the first occurrence of `pat`. -/
  listIdxOf (pat : List Char) : List Char → Option Nat
    | [] => if pat.isEmpty then some 0 else none
    | c :: rest =>
      if pat.isPrefixOf (c :: rest) then some 0
      else (listIdxOf pat rest).map (· + 1)

/-- Simple identity branches of `parse_modem_info`
(`if len(lines) > 0 and "ERROR" not in lines[0]: result[k] = lines[0]`). -/
def modemIdField (k : String) (lines : List String) : FieldMap :=
  if lines.length > 0 && !strHasInfix "ERROR" (getS lines 0) then
    fmInsert k (.s (getS lines 0)) []
  else []

/-- One line of the `AT+COPS?` branch of `parse_modem_info`
(parser.py lines 763–771).  `parts[0].split(":")[1]` raises `IndexError`
when the `+COPS:` marker sits after the first comma of the line. -/
def copsModemStep (line : String) (r : FieldMap) : Except String FieldMap :=
  if strHasInfix "+COPS:" line then
    let parts := pySplit ',' line
    if parts.length ≥ 3 then
      match pySplit ':' (getS parts 0) with
      | _ :: p1 :: _ =>
        let r := fmInsert "operator_mode" (.s (pyStrip p1)) r
        let r := fmInsert "operator_format" (.s (pyStrip (getS parts 1))) r
        let r := fmInsert "operator_name"
          (.s (pyStripQuotes (pyStrip (getS parts 2)))) r
        .ok (if parts.length ≥ 4 then
          fmInsert "act" (.s (pyStrip (getS parts 3))) r else r)
      | _ => .error "IndexError: list index out of range"
    else .ok r
  else .ok r

/-- One line of the `AT+CPLS?` branch of `parse_modem_info`
(parser.py lines 780–792). -/
def cplsStep (line : String) (r : FieldMap) : FieldMap :=
  if strHasInfix "+CPLS:" line then
    match pySplit ':' line with
    | _ :: p1 :: _ => fmInsert "plmn_selector" (.s (plmnSelectorLabel (pyStrip p1))) r
    | _ => r
  else r

/-- `parse_modem_info` (parser.py lines 712–794).  Total except for the
`AT+COPS?` branch (see `copsModemStep`). -/
def parse_modem_info (command response : String) : Except String FieldMap :=
  let lines := preprocessLines command response
  if strStarts "AT+CGMI" command then .ok (modemIdField "cgmi" lines)
  else if strStarts "AT+CGMM" command then .ok (modemIdField "cgmm" lines)
  else if strStarts "AT+CGMR" command then .ok (modemIdField "cgmr" lines)
  else if strStarts "AT+CGSN" command then .ok (modemIdField "cgsn" lines)
  else if strStarts "AT+CIMI" command then .ok (modemIdField "cimi" lines)
  else if strStarts "AT+CICCID" command then
    .ok (if lines.length > 0 && !strHasInfix "ERROR" (getS lines 0) then
      (if strHasInfix "+ICCID:" (getS lines 0) then
        fmInsert "iccid" (.s (pyStrip (splitTake1 "+ICCID:" (getS lines 0)))) []
      else fmInsert "iccid" (.s (getS lines 0)) [])
    else [])
  else if strStarts "AT+COPS?" command then foldLinesE copsModemStep lines []
  else if strStarts "AT+CPOL?" command then
    .ok (fmInsert "preferred_operators"
      (.sl (lines.filterMap (fun line =>
        if strHasInfix "+CPOL:" line then
          some (pyStrip (getS (pySplit1 ':' line) 1))
        else none))) [])
  else if strStarts "AT+CPLS?" command then .ok (foldLines cplsStep lines [])
  else .ok []

deriving instance DecidableEq for Except

/-- The pure field extraction underlying `parse_cell_info`: the dispatch of
parser.py lines 824–900 run on an empty initial map (no timestamp). -/
def cellFields (command response : String) : Except String FieldMap :=
  cellDispatch command (preprocessLines command response) []

/-! ## The command executor (`modem.py`)

`send_command` either returns the drained response text or raises; the
transport is modelled as an oracle giving the outcome of each transmission
attempt.  `execute_command` (modem.py lines 110–149) is the retry loop
`attempt = 0; while attempt <= retries: ...`, translated with the number of
remaining loop iterations (`retries + 1 - attempt`) as fuel. -/

/-- Outcome of one `send_command` call: the response text, or the message of
the exception caught by the `except` arm. -/
inductive Attempt where
  | resp (text : String)
  | raises (msg : String)
  deriving DecidableEq, Repr

/-- The transport oracle: outcome of the i-th transmission attempt. -/
abbrev Transport := Nat → Attempt

/-- An attempt the retry loop treats as failed: a response containing the
`"ERROR"` token, or a raised exception (modem.py lines 130 and 141). -/
def attemptFailing : Attempt → Bool
  | .resp t => strHasInfix "ERROR" t
  | .raises _ => true

/-- The text the loop would return for this attempt on exhaustion: the raw
response (line 136) or `str(e)` (line 147). -/
def attemptText : Attempt → String
  | .resp t => t
  | .raises m => m

/-- The body of the `while attempt <= retries:` loop; `fuel` is the number
of iterations still allowed (`retries + 1 - attempt`).  The `fuel = 0` case
is the fall-through `return False, "Max retries exceeded"` of line 149
(unreachable for `fuel = retries + 1 > 0`). -/
def execAux (env : Transport) (attempt : Nat) : Nat → Bool × String
  | 0 => (false, "Max retries exceeded")
  | fuel + 1 =>
    match env attempt with
    | .resp text =>
      if strHasInfix "ERROR" text then
        if fuel = 0 then (false, text) else execAux env (attempt + 1) fuel
      else (true, text)
    | .raises msg =>
      if fuel = 0 then (false, msg) else execAux env (attempt + 1) fuel

/-- `execute_command(command, retries)` (modem.py lines 110–149): returns the
pair `(success, response)` — and nothing else.  The `command` parameter only
reaches the transport, whose behaviour the oracle `env` models. -/
def execute_command (env : Transport) (command : String) (retries : Nat) :
    Bool × String :=
  execAux env 0 (retries + 1)

/-- Number of transmission attempts (`send_command` calls) the loop makes. -/
def execAttemptCount (env : Transport) (attempt : Nat) : Nat → Nat
  | 0 => 0
  | fuel + 1 =>
    match env attempt with
    | .resp text =>
      if strHasInfix "ERROR" text then
        if fuel = 0 then 1 else 1 + execAttemptCount env (attempt + 1) fuel
      else 1
    | .raises _ =>
      if fuel = 0 then 1 else 1 + execAttemptCount env (attempt + 1) fuel

/-- Attempts made by `execute_command env command retries`. -/
def executeAttempts (env : Transport) (command : String) (retries : Nat) : Nat :=
  execAttemptCount env 0 (retries + 1)

/-! ## The smart configuration engine (`smart_config.py`)

The configurator drives the modem only through
`self.modem.execute_command(cmd)`, so the modem is modelled as an oracle
giving the `(success, response)` result of each call in order; the state
records the number of calls made, the commands sent, and the four outcome
counters of `SmartModemConfigurator.__init__` (smart_config.py lines 40–46). -/

/-- The four outcome counters (`self.stats`). -/
structure Stats where
  checked : Nat
  changed : Nat
  skipped : Nat
  failed : Nat
  deriving DecidableEq, Repr

/-- The zero statistics of `__init__`. -/
def Stats.init : Stats := ⟨0, 0, 0, 0⟩

def bumpChecked (st : Stats) : Stats := { st with checked := st.checked + 1 }
def bumpChanged (st : Stats) : Stats := { st with changed := st.changed + 1 }
def bumpSkipped (st : Stats) : Stats := { st with skipped := st.skipped + 1 }
def bumpFailed (st : Stats) : Stats := { st with failed := st.failed + 1 }

/-- Observable state of a configuration run: how many `execute_command`
calls were made, which command strings were sent, and the counters. -/
structure CfgState where
  calls : Nat
  sent : List String
  stats : Stats
  deriving DecidableEq, Repr

/-- The modem oracle: result of the i-th `execute_command` call. -/
abbrev ModemScript := Nat → Bool × String

/-- One `self.modem.execute_command(cmd)` call. -/
def execCmd (env : ModemScript) (cmd : String) (s : CfgState) :
    (Bool × String) × CfgState :=
  (env s.calls, { s with calls := s.calls + 1, sent := s.sent ++ [cmd] })

/-! ### The concrete `re.search` patterns of `smart_config.py`

Every query-parsing pattern has the shape
`lit1 \\s* lit2 \\s* (\\d+)` (numeric settings) or the quoted/bare
alternation of the string-valued `QGPSCFG` settings.  Backtracking never
helps these patterns (no digit or quote is whitespace), so a greedy
scan-and-drop is their exact semantics. -/

/-- Match `lit1 \\s* lit2 \\s* (\\d+)` at the start of `s`; return the digit
group. -/
def numPatAt (lit1 lit2 : List Char) (s : List Char) : Option String :=
  if lit1.isPrefixOf s then
    let s1 := (s.drop lit1.length).dropWhile isPyWs
    if lit2.isPrefixOf s1 then
      let s2 := (s1.drop lit2.length).dropWhile isPyWs
      let ds := s2.takeWhile Char.isDigit
      if ds.isEmpty then none else some (String.mk ds)
    else none
  else none

/-- `re.search` scan for `numPatAt` (leftmost match). -/
def numPatScan (lit1 lit2 : List Char) : List Char → Option String
  | [] => none
  | c :: rest =>
    match numPatAt lit1 lit2 (c :: rest) with
    | some g => some g
    | none => numPatScan lit1 lit2 rest

/-- `re.search(lit1 + r'\\s*' + lit2 + r'\\s*(\\d+)', s)`. -/
def reSearchNum (lit1 lit2 s : String) : Option String :=
  numPatScan lit1.toList lit2.toList s.toList

/-- Match the string-valued `QGPSCFG` pattern
`\\+QGPSCFG:\\s*"setting",\\s*(?:"([^"]*)"|([^,\\s\\r\\n]*))` at the start of
`s` (smart_config.py line 259): a quoted group when a closing quote exists,
otherwise the bare run (possibly empty, so the alternation cannot fail once
the literals matched). -/
def strPatAt (lit1 lit2 : List Char) (s : List Char) : Option String :=
  if lit1.isPrefixOf s then
    let s1 := (s.drop lit1.length).dropWhile isPyWs
    if lit2.isPrefixOf s1 then
      let s2 := (s1.drop lit2.length).dropWhile isPyWs
      match s2 with
      | '"' :: tail =>
        if tail.any (· = '"') then some (String.mk (tail.takeWhile (· ≠ '"')))
        else some (String.mk (s2.takeWhile (fun c => !(c = ',' || isPyWs c))))
      | _ => some (String.mk (s2.takeWhile (fun c => !(c = ',' || isPyWs c))))
    else none
  else none

/-- `re.search` scan for `strPatAt`. -/
def strPatScan (lit1 lit2 : List Char) : List Char → Option String
  | [] => none
  | c :: rest =>
    match strPatAt lit1 lit2 (c :: rest) with
    | some g => some g
    | none => strPatScan lit1 lit2 rest

/-- The string-valued `QGPSCFG` query pattern for `setting`. -/
def reSearchQgpsStr (setting s : String) : Option String :=
  strPatScan "+QGPSCFG:".toList ("\"" ++ setting ++ "\",").toList s.toList

/-- Match `\\+QGPSCFG:\\s*"gnssrawdata",\\s*(.+)` (smart_config.py line 312)
at the start of `s`.  `(.+)` takes the rest of the line; when everything
after the literals is whitespace, the greedy `\\s*` backtracks and the group
is a whitespace run (which the caller immediately strips to `""`), possible
only when some whitespace char is not a newline. -/
def rawPatAt (lit1 lit2 : List Char) (s : List Char) : Option String :=
  if lit1.isPrefixOf s then
    let s1 := (s.drop lit1.length).dropWhile isPyWs
    if lit2.isPrefixOf s1 then
      let s2 := (s1.drop lit2.length)
      let s3 := s2.dropWhile isPyWs
      if !s3.isEmpty then some (String.mk (s3.takeWhile (· ≠ '\n')))
      else if s2.any (· ≠ '\n') then some " "
      else none
    else none
  else none

/-- `re.search` scan for `rawPatAt`. -/
def rawPatScan (lit1 lit2 : List Char) : List Char → Option String
  | [] => none
  | c :: rest =>
    match rawPatAt lit1 lit2 (c :: rest) with
    | some g => some g
    | none => rawPatScan lit1 lit2 rest

/-- The `gnssrawdata` query pattern. -/
def reSearchRawData (s : String) : Option String :=
  rawPatScan "+QGPSCFG:".toList "\"gnssrawdata\",".toList s.toList

/-! ### The check–set–verify functions -/

/-- The parse step shared by the numeric check–set–verify functions:
`match = re.search(pattern, response)` followed by the guarded
`int(match.group(1))`; `none` is Python's `current_value = None`. -/
def parsedNum (pat : String → Option String) (resp : String) : Option Int :=
  match pat resp with
  | none => none
  | some g => pyInt g

/-- `_check_set_verify_numeric` (smart_config.py lines 339–391).  `pat`
models the `response_pattern` regex parameter, returning the text of the
first capture group; the `int()` conversion of line 369 sits in a
`try`/`except`, so a failing conversion leaves the current value unknown. -/
def check_set_verify_numeric (env : ModemScript) (at_command : String)
    (desired : Int) (pat : String → Option String) (s : CfgState) :
    Bool × CfgState :=
  let s := { s with stats := bumpChecked s.stats }
  let q := execCmd env (at_command ++ "?") s
  if !q.1.1 then (false, { q.2 with stats := bumpFailed q.2.stats })
  else
    let current : Option Int := parsedNum pat q.1.2
    if current = some desired then (true, { q.2 with stats := bumpSkipped q.2.stats })
    else
      let st := execCmd env (at_command ++ "=" ++ toString desired) q.2
      if st.1.1 then (true, { st.2 with stats := bumpChanged st.2.stats })
      else (false, { st.2 with stats := bumpFailed st.2.stats })

/-- `_configure_cmee` (smart_config.py lines 199–201). -/
def configure_cmee (env : ModemScript) (desired : Int) (s : CfgState) :
    Bool × CfgState :=
  check_set_verify_numeric env "AT+CMEE" desired (reSearchNum "+CMEE:" "") s

/-- `_configure_ctzu` (smart_config.py lines 203–205). -/
def configure_ctzu (env : ModemScript) (desired : Int) (s : CfgState) :
    Bool × CfgState :=
  check_set_verify_numeric env "AT+CTZU" desired (reSearchNum "+CTZU:" "") s

/-- `_check_set_verify_qopscfg` (smart_config.py lines 393–435). -/
def check_set_verify_qopscfg (env : ModemScript) (parameter : String)
    (desired : Int) (s : CfgState) : Bool × CfgState :=
  let s := { s with stats := bumpChecked s.stats }
  let q := execCmd env ("AT+QOPSCFG=\"" ++ parameter ++ "\"") s
  if !q.1.1 then (false, { q.2 with stats := bumpFailed q.2.stats })
  else
    let current : Option Int :=
      parsedNum (reSearchNum "+QOPSCFG:" ("\"" ++ parameter ++ "\",")) q.1.2
    if current = some desired then (true, { q.2 with stats := bumpSkipped q.2.stats })
    else
      let st := execCmd env
        ("AT+QOPSCFG=\"" ++ parameter ++ "\"," ++ toString desired) q.2
      if st.1.1 then (true, { st.2 with stats := bumpChanged st.2.stats })
      else (false, { st.2 with stats := bumpFailed st.2.stats })

/-- `_configure_qgpscfg_setting` with `value_type == int`
(smart_config.py lines 243–297, numeric pattern of line 261; the capture
group is a digit run, so the unguarded `int()` of line 274 cannot raise). -/
def configure_qgpscfg_setting_int (env : ModemScript) (setting : String)
    (desired : Int) (s : CfgState) : Bool × CfgState :=
  let s := { s with stats := bumpChecked s.stats }
  let q := execCmd env ("AT+QGPSCFG=\"" ++ setting ++ "\"") s
  if !q.1.1 then (false, { q.2 with stats := bumpFailed q.2.stats })
  else
    let current : Option Int :=
      parsedNum (reSearchNum "+QGPSCFG:" ("\"" ++ setting ++ "\",")) q.1.2
    if current = some desired then (true, { q.2 with stats := bumpSkipped q.2.stats })
    else
      let st := execCmd env
        ("AT+QGPSCFG=\"" ++ setting ++ "\"," ++ toString desired) q.2
      if st.1.1 then (true, { st.2 with stats := bumpChanged st.2.stats })
      else (false, { st.2 with stats := bumpFailed st.2.stats })

/-- `_configure_qgpscfg_setting` with `value_type == str`
(smart_config.py lines 243–297, quoted/bare pattern of line 259). -/
def configure_qgpscfg_setting_str (env : ModemScript) (setting : String)
    (desired : String) (s : CfgState) : Bool × CfgState :=
  let s := { s with stats := bumpChecked s.stats }
  let q := execCmd env ("AT+QGPSCFG=\"" ++ setting ++ "\"") s
  if !q.1.1 then (false, { q.2 with stats := bumpFailed q.2.stats })
  else
    let current : Option String := reSearchQgpsStr setting q.1.2
    if current = some desired then (true, { q.2 with stats := bumpSkipped q.2.stats })
    else
      let st := execCmd env
        ("AT+QGPSCFG=\"" ++ setting ++ "\",\"" ++ desired ++ "\"") q.2
      if st.1.1 then (true, { st.2 with stats := bumpChanged st.2.stats })
      else (false, { st.2 with stats := bumpFailed st.2.stats })

/-- `_configure_qgpscfg_raw_data` (smart_config.py lines 299–337). -/
def configure_qgpscfg_raw_data (env : ModemScript) (config_value : String)
    (s : CfgState) : Bool × CfgState :=
  let s := { s with stats := bumpChecked s.stats }
  let q := execCmd env "AT+QGPSCFG=\"gnssrawdata\"" s
  if !q.1.1 then (false, { q.2 with stats := bumpFailed q.2.stats })
  else
    let current : Option String :=
      match reSearchRawData q.1.2 with
      | none => none
      | some g => some (pyStrip g)
    let current : Option String :=
      match current with
      | some v =>
        if v ≠ "" && strHasInfix "\n" v then some (pyStrip (getS (pySplit '\n' v) 0))
        else some v
      | none => none
    if current = some config_value then
      (true, { q.2 with stats := bumpSkipped q.2.stats })
    else
      let st := execCmd env ("AT+QGPSCFG=\"gnssrawdata\"," ++ config_value) q.2
      if st.1.1 then (true, { st.2 with stats := bumpChanged st.2.stats })
      else (false, { st.2 with stats := bumpFailed st.2.stats })

/-- `_configure_forbidden_plmn_clear` (smart_config.py lines 207–233). -/
def configure_forbidden_plmn_clear (env : ModemScript) (s : CfgState) :
    Bool × CfgState :=
  let s := { s with stats := bumpChecked s.stats }
  let q := execCmd env "AT+QFPLMNCFG=\"list\"" s
  if !q.1.1 then (false, { q.2 with stats := bumpFailed q.2.stats })
  else if strHasInfix "+QFPLMNCFG:" q.1.2 then
    let d := execCmd env "AT+QFPLMNCFG=\"Delete\",\"all\"" q.2
    if d.1.1 then (true, { d.2 with stats := bumpChanged d.2.stats })
    else (false, { d.2 with stats := bumpFailed d.2.stats })
  else (true, { q.2 with stats := bumpSkipped q.2.stats })

/-- The `gnss` group of the desired-configuration document as consumed by
`_configure_gnss_settings` (smart_config.py lines 145–197): `enabled`, the
twelve optional `QGPSCFG` settings of the `gnss_settings` list (lines
163–176; `output_port` is the single `str`-typed one), and the optional
`raw_data_config`. -/
structure GnssConfig where
  enabled : Bool
  output_port : Option String := none
  nmea_source : Option Int := none
  gps_nmea_type : Option Int := none
  glonass_nmea_type : Option Int := none
  galileo_nmea_type : Option Int := none
  beidou_nmea_type : Option Int := none
  gsv_extended_nmea : Option Int := none
  gnss_config : Option Int := none
  auto_gps : Option Int := none
  agps_position_mode : Option Int := none
  fix_frequency : Option Int := none
  one_pps : Option Int := none
  raw_data_config : Option String := none
  deriving DecidableEq, Repr

/-- One iteration of the `for config_key, at_param, value_type in
gnss_settings:` loop for an `int`-typed setting: run the configure call when
the key is present, and-accumulate `overall_success`. -/
def gnssStepInt (env : ModemScript) (at_param : String) (v : Option Int)
    (acc : Bool × CfgState) : Bool × CfgState :=
  match v with
  | none => acc
  | some d =>
    let r := configure_qgpscfg_setting_int env at_param d acc.2
    (acc.1 && r.1, r.2)

/-- The `str`-typed iteration (`output_port`/`outport`). -/
def gnssStepStr (env : ModemScript) (at_param : String) (v : Option String)
    (acc : Bool × CfgState) : Bool × CfgState :=
  match v with
  | none => acc
  | some d =>
    let r := configure_qgpscfg_setting_str env at_param d acc.2
    (acc.1 && r.1, r.2)

/-- The `raw_data_config` special case (smart_config.py lines 185–187). -/
def gnssStepRaw (env : ModemScript) (v : Option String)
    (acc : Bool × CfgState) : Bool × CfgState :=
  match v with
  | none => acc
  | some d =>
    let r := configure_qgpscfg_raw_data env d acc.2
    (acc.1 && r.1, r.2)

/-- `_configure_gnss_settings` (smart_config.py lines 145–197): when GNSS is
enabled, power off positioning (`AT+QGPSEND`, result only logged), run the
twelve settings in list order and the raw-data special case, then power
positioning back on (`AT+QGPS=1`) unconditionally; a failed power-on makes
the overall result `False`. -/
def configure_gnss_settings (env : ModemScript) (gnss : GnssConfig)
    (s : CfgState) : Bool × CfgState :=
  if !gnss.enabled then (true, s)
  else
    let off := execCmd env "AT+QGPSEND" s
    let acc := (true, off.2)
    let acc := gnssStepStr env "outport" gnss.output_port acc
    let acc := gnssStepInt env "nmeasrc" gnss.nmea_source acc
    let acc := gnssStepInt env "gpsnmeatype" gnss.gps_nmea_type acc
    let acc := gnssStepInt env "glonassnmeatype" gnss.glonass_nmea_type acc
    let acc := gnssStepInt env "galileonmeatype" gnss.galileo_nmea_type acc
    let acc := gnssStepInt env "beidounmeatype" gnss.beidou_nmea_type acc
    let acc := gnssStepInt env "gsvextnmeatype" gnss.gsv_extended_nmea acc
    let acc := gnssStepInt env "gnssconfig" gnss.gnss_config acc
    let acc := gnssStepInt env "autogps" gnss.auto_gps acc
    let acc := gnssStepInt env "agpsposmode" gnss.agps_position_mode acc
    let acc := gnssStepInt env "fixfreq" gnss.fix_frequency acc
    let acc := gnssStepInt env "1pps" gnss.one_pps acc
    let acc := gnssStepRaw env gnss.raw_data_config acc
    let pwr := execCmd env "AT+QGPS=1" acc.2
    (acc.1 && pwr.1.1, pwr.2)

/-! ## Auxiliary notions used by the verification statements -/

/-- A run of a per-setting configure method increments exactly one of the
three outcome counters `changed`/`skipped`/`failed` (on top of `checked`). -/
def OneOutcomeBump (a b : Stats) : Prop :=
  (b.changed = a.changed + 1 ∧ b.skipped = a.skipped ∧ b.failed = a.failed) ∨
  (b.changed = a.changed ∧ b.skipped = a.skipped + 1 ∧ b.failed = a.failed) ∨
  (b.changed = a.changed ∧ b.skipped = a.skipped ∧ b.failed = a.failed + 1)

/-- How many of the four outcome counters differ between two statistics
records. -/
def countersBumped (a b : Stats) : Nat :=
  (if b.checked ≠ a.checked then 1 else 0) +
  (if b.changed ≠ a.changed then 1 else 0) +
  (if b.skipped ≠ a.skipped then 1 else 0) +
  (if b.failed ≠ a.failed then 1 else 0)

/-- A transport on which every attempt yields a device-reported error. -/
def envAllError : Transport := fun _ => .resp "ERROR"

/-- A modem script on which every `execute_command` call fails. -/
def envCfgFail : ModemScript := fun _ => (false, "ERROR")

/-- A modem script whose every call succeeds and reports `+CMEE: 2`. -/
def envCmeeTwo : ModemScript := fun _ => (true, "+CMEE: 2")

/-- The initial configurator state: no calls made, nothing sent, zero
counters. -/
def CfgState.init : CfgState := ⟨0, [], Stats.init⟩

/-- A modem script whose every call succeeds with text no pattern matches. -/
def envGarbage : ModemScript := fun _ => (true, "garbage")

/-- A desired GNSS configuration that only turns the subsystem on. -/
def gnssEnabledOnly : GnssConfig := { enabled := true }

/-! ## Lemmas -/

theorem fmInsert_cons_ne (k : String) (v : Value) (p : String × Value)
    (r : FieldMap) (h : p.1 ≠ k) :
    fmInsert k v (p :: r) = p :: fmInsert k v r := by
  simp [fmInsert, h]

theorem runTry_cons (p : String × Value) (fs : List (FieldMap → TryRes))
    (hf : ∀ f ∈ fs, StepCons p f) (r : FieldMap) :
    runTry fs (p :: r) = p :: runTry fs r := by
  induction fs generalizing r with
  | nil => rfl
  | cons f fs ih =>
    have h := hf f (by simp)
    have hrest : ∀ g ∈ fs, StepCons p g := fun g hg => hf g (by simp [hg])
    simp only [runTry, h r]
    cases f r with
    | cont r' => exact ih hrest r'
    | halt r' => rfl

theorem foldLines_cons (step : String → FieldMap → FieldMap)
    (p : String × Value)
    (hstep : ∀ line r, step line (p :: r) = p :: step line r)
    (lines : List String) (r : FieldMap) :
    foldLines step lines (p :: r) = p :: foldLines step lines r := by
  induction lines generalizing r with
  | nil => rfl
  | cons l ls ih => simp only [foldLines, hstep l r]; exact ih (step l r)

theorem foldLinesE_cons (step : String → FieldMap → Except String FieldMap)
    (p : String × Value)
    (hstep : ∀ line r, step line (p :: r) = (step line r).map (p :: ·))
    (lines : List String) (r : FieldMap) :
    foldLinesE step lines (p :: r) = (foldLinesE step lines r).map (p :: ·) := by
  induction lines generalizing r with
  | nil => rfl
  | cons l ls ih =>
    simp only [foldLinesE, hstep l r]
    cases step l r with
    | error e => rfl
    | ok r' => simp [Except.map, ih r']

theorem stepCons_wStep (p : String × Value) (k : String) (v : Value)
    (h : p.1 ≠ k) : StepCons p (wStep k v) := by
  intro r; simp [wStep, fmInsert_cons_ne _ _ _ _ h]

theorem stepCons_wStepIf (p : String × Value) (g : Bool) (k : String) (v : Value)
    (h : p.1 ≠ k) : StepCons p (wStepIf g k v) := by
  intro r; unfold wStepIf; split <;> simp [fmInsert_cons_ne _ _ _ _ h]

theorem stepCons_tryIntStep (p : String × Value) (parse : String → Option Int)
    (v : String) (upd : Int → FieldMap → FieldMap)
    (hupd : ∀ n r, upd n (p :: r) = p :: upd n r) :
    StepCons p (tryIntStep parse v upd) := by
  intro r; unfold tryIntStep; cases parse v <;> simp [hupd]

theorem stepCons_tryIntStepIf (p : String × Value) (g : Bool)
    (parse : String → Option Int) (v : String) (upd : Int → FieldMap → FieldMap)
    (hupd : ∀ n r, upd n (p :: r) = p :: upd n r) :
    StepCons p (tryIntStepIf g parse v upd) := by
  intro r; unfold tryIntStepIf
  split
  · exact stepCons_tryIntStep p parse v upd hupd r
  · rfl

theorem stepCons_digitIntStep (p : String × Value) (g : Bool) (x k : String)
    (h : p.1 ≠ k) : StepCons p (digitIntStep g x k) := by
  apply stepCons_tryIntStepIf
  intro n r; exact fmInsert_cons_ne _ _ _ _ h

theorem stepCons_dashIntStep (p : String × Value) (g : Bool) (x k : String)
    (h : p.1 ≠ k) : StepCons p (dashIntStep g x k) := by
  apply stepCons_tryIntStepIf
  intro n r; exact fmInsert_cons_ne _ _ _ _ h

/-! ## The timestamp entry is untouched by every decoder

Each decoder only writes keys other than `timestamp`, so the head entry
`("timestamp", v)` written first by `parse_cell_info` survives at the head
of the map.  One lemma per decoder, by the step builders above. -/

theorem csqStep_cons (v' : Value) (line : String) (r : FieldMap) :
    csqStep line (("timestamp", v') :: r) = ("timestamp", v') :: csqStep line r := by
  unfold csqStep
  split
  · split
    · dsimp only
      split
      · apply runTry_cons
        intro f hf
        simp only [List.mem_cons, List.not_mem_nil, or_false] at hf
        rcases hf with rfl | rfl
        · apply stepCons_tryIntStep
          intro n r; split <;> simp [fmInsert]
        · apply stepCons_tryIntStep
          intro n r; split <;> simp [fmInsert]
      · rfl
    · rfl
  · rfl

theorem cesqStep_cons (v' : Value) (line : String) (r : FieldMap) :
    cesqStep line (("timestamp", v') :: r) = ("timestamp", v') :: cesqStep line r := by
  unfold cesqStep
  split
  · split
    · dsimp only
      split
      · apply runTry_cons
        intro f hf
        simp only [List.mem_cons, List.not_mem_nil, or_false] at hf
        rcases hf with rfl | rfl | rfl | rfl | rfl | rfl <;>
          · apply stepCons_tryIntStep
            intro n r; split <;> simp [fmInsert]
      · rfl
    · rfl
  · rfl

theorem cgattStep_cons (v' : Value) (line : String) (r : FieldMap) :
    cgattStep line (("timestamp", v') :: r) = ("timestamp", v') :: cgattStep line r := by
  unfold cgattStep
  split
  · split
    · apply runTry_cons
      intro f hf
      simp only [List.mem_cons, List.not_mem_nil, or_false] at hf
      rcases hf with rfl
      apply stepCons_tryIntStep
      intro n r; simp [fmInsert]
    · rfl
  · rfl

theorem copsStep_cons (v' : Value) (line : String) (r : FieldMap) :
    copsStep line (("timestamp", v') :: r) = ("timestamp", v') :: copsStep line r := by
  unfold copsStep
  split
  · split
    · dsimp only
      split
      · apply runTry_cons
        intro f hf
        simp only [List.mem_cons, List.not_mem_nil, or_false] at hf
        rcases hf with rfl | rfl | rfl | rfl
        · apply stepCons_tryIntStep
          intro n r; simp [fmInsert]
        · apply stepCons_tryIntStep
          intro n r; simp [fmInsert]
        · exact stepCons_wStep _ _ _ (by simp)
        · apply stepCons_tryIntStepIf
          intro n r; simp [fmInsert]
      · rfl
    · rfl
  · rfl

theorem cfunStep_cons (v' : Value) (line : String) (r : FieldMap) :
    cfunStep line (("timestamp", v') :: r) = ("timestamp", v') :: cfunStep line r := by
  unfold cfunStep
  split
  · split
    · apply runTry_cons
      intro f hf
      simp only [List.mem_cons, List.not_mem_nil, or_false] at hf
      rcases hf with rfl
      apply stepCons_tryIntStep
      intro n r; simp [fmInsert]
    · rfl
  · rfl

theorem cclkStep_cons (v' : Value) (line : String) (r : FieldMap) :
    cclkStep line (("timestamp", v') :: r) = ("timestamp", v') :: cclkStep line r := by
  unfold cclkStep
  split
  · split
    · simp [fmInsert]
    · rfl
  · rfl

theorem stepCons_qcsqField (p : String × Value) (values : List String)
    (i : Nat) (k : String) (h : p.1 ≠ k) : StepCons p (qcsqField values i k) := by
  apply stepCons_tryIntStepIf
  intro n r; exact fmInsert_cons_ne _ _ _ _ h

theorem qcsqStep_cons (v' : Value) (line : String) (r : FieldMap) :
    qcsqStep line (("timestamp", v') :: r) = ("timestamp", v') :: qcsqStep line r := by
  unfold qcsqStep
  split
  · split
    · dsimp only
      split
      · rfl
      · apply runTry_cons
        intro f hf
        simp only [List.cons_append, List.nil_append, List.mem_cons] at hf
        rcases hf with rfl | hf
        · exact stepCons_wStepIf _ _ _ _ (by simp)
        · split at hf
          · simp only [List.mem_cons, List.not_mem_nil, or_false] at hf
            rcases hf with rfl
            exact stepCons_qcsqField _ _ _ _ (by simp)
          · split at hf
            · simp only [List.mem_cons, List.not_mem_nil, or_false] at hf
              rcases hf with rfl | rfl | rfl <;>
                exact stepCons_qcsqField _ _ _ _ (by simp)
            · split at hf
              · simp only [List.mem_cons, List.not_mem_nil, or_false] at hf
                rcases hf with rfl | rfl | rfl | rfl <;>
                  exact stepCons_qcsqField _ _ _ _ (by simp)
              · split at hf
                · simp only [List.mem_cons, List.not_mem_nil, or_false] at hf
                  rcases hf with rfl | rfl | rfl <;>
                    exact stepCons_qcsqField _ _ _ _ (by simp)
                · simp at hf
    · rfl
  · rfl

theorem qnwinfoStep_cons (v' : Value) (line : String) (r : FieldMap) :
    qnwinfoStep line (("timestamp", v') :: r) =
      ("timestamp", v') :: qnwinfoStep line r := by
  unfold qnwinfoStep
  split
  · split
    · dsimp only
      split
      · rfl
      · apply runTry_cons
        intro f hf
        simp only [List.mem_cons, List.not_mem_nil, or_false] at hf
        rcases hf with rfl | rfl | rfl | rfl
        · exact stepCons_wStepIf _ _ _ _ (by simp)
        · exact stepCons_wStepIf _ _ _ _ (by simp)
        · exact stepCons_wStepIf _ _ _ _ (by simp)
        · apply stepCons_tryIntStepIf
          intro n r; simp [fmInsert]
    · rfl
  · rfl

theorem qengServStep_cons (v' : Value) (line : String) (r : FieldMap) :
    qengServStep line (("timestamp", v') :: r) =
      ("timestamp", v') :: qengServStep line r := by
  unfold qengServStep
  split
  · split
    · dsimp only
      split
      · rfl
      · split
        · apply runTry_cons
          intro f hf
          simp only [List.cons_append, List.nil_append, List.mem_cons] at hf
          rcases hf with rfl | hf
          · exact stepCons_wStep _ _ _ (by simp)
          · split at hf
            · simp only [List.mem_cons, List.not_mem_nil, or_false] at hf
              rcases hf with rfl | rfl | rfl | rfl | rfl | rfl | rfl
              · exact stepCons_wStepIf _ _ _ _ (by simp)
              · exact stepCons_wStepIf _ _ _ _ (by simp)
              · exact stepCons_digitIntStep _ _ _ _ (by simp)
              · exact stepCons_digitIntStep _ _ _ _ (by simp)
              · exact stepCons_digitIntStep _ _ _ _ (by simp)
              · exact stepCons_digitIntStep _ _ _ _ (by simp)
              · exact stepCons_digitIntStep _ _ _ _ (by simp)
            · split at hf
              · simp only [List.mem_cons, List.not_mem_nil, or_false] at hf
                rcases hf with rfl | rfl | rfl | rfl | rfl | rfl | rfl | rfl
                · exact stepCons_wStepIf _ _ _ _ (by simp)
                · exact stepCons_wStepIf _ _ _ _ (by simp)
                · exact stepCons_digitIntStep _ _ _ _ (by simp)
                · exact stepCons_digitIntStep _ _ _ _ (by simp)
                · exact stepCons_digitIntStep _ _ _ _ (by simp)
                · exact stepCons_digitIntStep _ _ _ _ (by simp)
                · exact stepCons_digitIntStep _ _ _ _ (by simp)
                · exact stepCons_digitIntStep _ _ _ _ (by simp)
              · split at hf
                · simp only [List.mem_cons, List.not_mem_nil, or_false] at hf
                  rcases hf with rfl | rfl | rfl | rfl | rfl | rfl | rfl | rfl |
                    rfl | rfl | rfl | rfl
                  · exact stepCons_wStepIf _ _ _ _ (by simp)
                  · exact stepCons_wStepIf _ _ _ _ (by simp)
                  · exact stepCons_digitIntStep _ _ _ _ (by simp)
                  · exact stepCons_digitIntStep _ _ _ _ (by simp)
                  · exact stepCons_digitIntStep _ _ _ _ (by simp)
                  · exact stepCons_digitIntStep _ _ _ _ (by simp)
                  · exact stepCons_wStepIf _ _ _ _ (by simp)
                  · exact stepCons_digitIntStep _ _ _ _ (by simp)
                  · exact stepCons_dashIntStep _ _ _ _ (by simp)
                  · exact stepCons_dashIntStep _ _ _ _ (by simp)
                  · exact stepCons_dashIntStep _ _ _ _ (by simp)
                  · exact stepCons_dashIntStep _ _ _ _ (by simp)
                · simp at hf
        · rfl
    · rfl
  · rfl

theorem parse_quectel_neighbor_cells_cons (v' : Value) (lines : List String)
    (r : FieldMap) :
    parse_quectel_neighbor_cells lines (("timestamp", v') :: r) =
      ("timestamp", v') :: parse_quectel_neighbor_cells lines r := by
  unfold parse_quectel_neighbor_cells
  dsimp only
  split
  · rfl
  · exact fmInsert_cons_ne _ _ _ _ (by simp)

theorem qspnStep_cons (v' : Value) (line : String) (r : FieldMap) :
    qspnStep line (("timestamp", v') :: r) = ("timestamp", v') :: qspnStep line r := by
  unfold qspnStep
  split
  · split
    · dsimp only
      split <;> split <;> split <;> simp [fmInsert]
    · rfl
  · rfl

theorem qnetinfoStep_cons (v' : Value) (line : String) (r : FieldMap) :
    qnetinfoStep line (("timestamp", v') :: r) =
      ("timestamp", v') :: qnetinfoStep line r := by
  unfold qnetinfoStep
  split
  · split
    · dsimp only
      split
      · split
        · split <;> simp [fmInsert]
        · split
          · split <;> simp [fmInsert]
          · split
            · split <;> simp [fmInsert]
            · rfl
      · rfl
    · rfl
  · rfl

theorem parse_signal_quality_cons (v' : Value) (lines : List String) (r : FieldMap) :
    parse_signal_quality lines (("timestamp", v') :: r) =
      ("timestamp", v') :: parse_signal_quality lines r :=
  foldLines_cons _ _ (csqStep_cons v') lines r

theorem parse_extended_signal_quality_cons (v' : Value) (lines : List String)
    (r : FieldMap) :
    parse_extended_signal_quality lines (("timestamp", v') :: r) =
      ("timestamp", v') :: parse_extended_signal_quality lines r :=
  foldLines_cons _ _ (cesqStep_cons v') lines r

theorem parse_gprs_attachment_cons (v' : Value) (lines : List String) (r : FieldMap) :
    parse_gprs_attachment lines (("timestamp", v') :: r) =
      ("timestamp", v') :: parse_gprs_attachment lines r :=
  foldLines_cons _ _ (cgattStep_cons v') lines r

theorem parse_current_operator_cons (v' : Value) (lines : List String) (r : FieldMap) :
    parse_current_operator lines (("timestamp", v') :: r) =
      ("timestamp", v') :: parse_current_operator lines r :=
  foldLines_cons _ _ (copsStep_cons v') lines r

theorem parse_functionality_status_cons (v' : Value) (lines : List String)
    (r : FieldMap) :
    parse_functionality_status lines (("timestamp", v') :: r) =
      ("timestamp", v') :: parse_functionality_status lines r :=
  foldLines_cons _ _ (cfunStep_cons v') lines r

theorem parse_real_time_clock_cons (v' : Value) (lines : List String) (r : FieldMap) :
    parse_real_time_clock lines (("timestamp", v') :: r) =
      ("timestamp", v') :: parse_real_time_clock lines r :=
  foldLines_cons _ _ (cclkStep_cons v') lines r

theorem parse_quectel_signal_quality_cons (v' : Value) (lines : List String)
    (r : FieldMap) :
    parse_quectel_signal_quality lines (("timestamp", v') :: r) =
      ("timestamp", v') :: parse_quectel_signal_quality lines r :=
  foldLines_cons _ _ (qcsqStep_cons v') lines r

theorem parse_quectel_network_info_cons (v' : Value) (lines : List String)
    (r : FieldMap) :
    parse_quectel_network_info lines (("timestamp", v') :: r) =
      ("timestamp", v') :: parse_quectel_network_info lines r :=
  foldLines_cons _ _ (qnwinfoStep_cons v') lines r

theorem parse_quectel_serving_cell_cons (v' : Value) (lines : List String)
    (r : FieldMap) :
    parse_quectel_serving_cell lines (("timestamp", v') :: r) =
      ("timestamp", v') :: parse_quectel_serving_cell lines r :=
  foldLines_cons _ _ (qengServStep_cons v') lines r

theorem foldLines_qspn_cons (v' : Value) (lines : List String) (r : FieldMap) :
    foldLines qspnStep lines (("timestamp", v') :: r) =
      ("timestamp", v') :: foldLines qspnStep lines r :=
  foldLines_cons _ _ (qspnStep_cons v') lines r

theorem foldLines_qnetinfo_cons (v' : Value) (lines : List String) (r : FieldMap) :
    foldLines qnetinfoStep lines (("timestamp", v') :: r) =
      ("timestamp", v') :: foldLines qnetinfoStep lines r :=
  foldLines_cons _ _ (qnetinfoStep_cons v') lines r

theorem regStatusPart_cons (v' : Value) (parts : List String) (r : FieldMap) :
    regStatusPart parts (("timestamp", v') :: r) =
      (regStatusPart parts r).map (("timestamp", v') :: ·) := by
  unfold regStatusPart
  split
  · cases pyInt (pyStrip (getS parts 1)) <;> simp [Except.map, fmInsert]
  · simp [Except.map]

theorem regLocation_cons (v' : Value) (parts : List String) (r : FieldMap) :
    regLocation parts (("timestamp", v') :: r) =
      ("timestamp", v') :: regLocation parts r := by
  unfold regLocation
  apply runTry_cons
  intro f hf
  simp only [List.mem_cons, List.not_mem_nil, or_false] at hf
  rcases hf with rfl | rfl | rfl
  · apply stepCons_tryIntStep
    intro n r; simp [fmInsert]
  · apply stepCons_tryIntStep
    intro n r; simp [fmInsert]
  · apply stepCons_tryIntStepIf
    intro n r; simp [fmInsert]

theorem regStep_cons (v' : Value) (rp line : String) (r : FieldMap) :
    regStep rp line (("timestamp", v') :: r) =
      (regStep rp line r).map (("timestamp", v') :: ·) := by
  unfold regStep
  split
  · rw [regStatusPart_cons]
    cases regStatusPart (pySplit ',' line) r with
    | error e => rfl
    | ok r1 =>
      simp only [Except.map]
      split
      · rw [regLocation_cons]
      · rfl
  · rfl

theorem parse_network_registration_cons (v' : Value) (command : String)
    (lines : List String) (r : FieldMap) :
    parse_network_registration command lines (("timestamp", v') :: r) =
      (parse_network_registration command lines r).map (("timestamp", v') :: ·) := by
  unfold parse_network_registration
  cases regTech command with
  | none => rfl
  | some tr =>
    dsimp only
    rw [fmInsert_cons_ne _ _ _ _ (by simp)]
    exact foldLinesE_cons _ _ (regStep_cons v' tr.2) lines _

/-- The dispatch leaves an initial singleton `timestamp` entry at the head
and otherwise computes the same fields as from an empty map. -/
theorem cellDispatch_cons (v' : Value) (command : String) (lines : List String) :
    cellDispatch command lines [("timestamp", v')] =
      (cellDispatch command lines []).map (("timestamp", v') :: ·) := by
  unfold cellDispatch
  by_cases h1 : (strStarts "AT+CREG?" command || strStarts "AT+CGREG?" command ||
      strStarts "AT+CEREG?" command) = true
  · rw [if_pos h1, if_pos h1]
    exact parse_network_registration_cons _ _ _ []
  · rw [if_neg h1, if_neg h1]
    by_cases h2 : strStarts "AT+CSQ" command = true
    · rw [if_pos h2, if_pos h2]
      simp [Except.map, parse_signal_quality_cons]
    · rw [if_neg h2, if_neg h2]
      by_cases h3 : strStarts "AT+CESQ" command = true
      · rw [if_pos h3, if_pos h3]
        simp [Except.map, parse_extended_signal_quality_cons]
      · rw [if_neg h3, if_neg h3]
        by_cases h4 : strStarts "AT+CGATT?" command = true
        · rw [if_pos h4, if_pos h4]
          simp [Except.map, parse_gprs_attachment_cons]
        · rw [if_neg h4, if_neg h4]
          by_cases h5 : strStarts "AT+COPS?" command = true
          · rw [if_pos h5, if_pos h5]
            simp [Except.map, parse_current_operator_cons]
          · rw [if_neg h5, if_neg h5]
            by_cases h6 : strStarts "AT+CFUN?" command = true
            · rw [if_pos h6, if_pos h6]
              simp [Except.map, parse_functionality_status_cons]
            · rw [if_neg h6, if_neg h6]
              by_cases h7 : strStarts "AT+CCLK?" command = true
              · rw [if_pos h7, if_pos h7]
                simp [Except.map, parse_real_time_clock_cons]
              · rw [if_neg h7, if_neg h7]
                by_cases h8 : strStarts "AT+QCSQ" command = true
                · rw [if_pos h8, if_pos h8]
                  simp [Except.map, parse_quectel_signal_quality_cons]
                · rw [if_neg h8, if_neg h8]
                  by_cases h9 : strStarts "AT+QNWINFO" command = true
                  · rw [if_pos h9, if_pos h9]
                    simp [Except.map, parse_quectel_network_info_cons]
                  · rw [if_neg h9, if_neg h9]
                    by_cases h10 : strStarts "AT+QENG=\"servingcell\"" command = true
                    · rw [if_pos h10, if_pos h10]
                      simp [Except.map, parse_quectel_serving_cell_cons]
                    · rw [if_neg h10, if_neg h10]
                      by_cases h11 : strStarts "AT+QENG=\"neighbourcell\"" command = true
                      · rw [if_pos h11, if_pos h11]
                        simp [Except.map, parse_quectel_neighbor_cells_cons]
                      · rw [if_neg h11, if_neg h11]
                        by_cases h12 : strStarts "AT+QSPN" command = true
                        · rw [if_pos h12, if_pos h12]
                          simp [Except.map, foldLines_qspn_cons]
                        · rw [if_neg h12, if_neg h12]
                          by_cases h13 : strStarts "AT+QNETINFO" command = true
                          · rw [if_pos h13, if_pos h13]
                            simp [Except.map, foldLines_qnetinfo_cons]
                          · rw [if_neg h13, if_neg h13]
                            simp [Except.map]

/-- `parse_cell_info` always produces the clock entry first, followed by the
time-independent field extraction (or propagates the decoder's exception,
which is also time-independent). -/
theorem parse_cell_info_shape (command response now : String) :
    parse_cell_info command response now =
      (cellFields command response).map
        (fun rest => ("timestamp", Value.s now) :: rest) := by
  unfold parse_cell_info cellFields
  exact cellDispatch_cons (Value.s now) command (preprocessLines command response)

theorem execAttemptCount_le (env : Transport) (fuel : Nat) :
    ∀ attempt, execAttemptCount env attempt fuel ≤ fuel := by
  induction fuel with
  | zero => intro a; simp [execAttemptCount]
  | succ f ih =>
    intro a
    unfold execAttemptCount
    cases env a with
    | resp text =>
      dsimp only
      split
      · split
        · omega
        · have := ih (a + 1); omega
      · omega
    | raises msg =>
      dsimp only
      split
      · omega
      · have := ih (a + 1); omega

/-- When every allowed attempt fails, the loop returns `success = false`
with the text of the last attempt. -/
theorem execAux_exhaust (env : Transport) (fuel : Nat) :
    ∀ attempt, 0 < fuel →
      (∀ i, i < fuel → attemptFailing (env (attempt + i)) = true) →
      execAux env attempt fuel = (false, attemptText (env (attempt + fuel - 1))) := by
  induction fuel with
  | zero => intro a h; omega
  | succ f ih =>
    intro a _ hfail
    have h0 : attemptFailing (env a) = true := by
      have := hfail 0 (by omega); simpa using this
    unfold execAux
    cases henv : env a with
    | resp text =>
      dsimp only
      have herr : strHasInfix "ERROR" text = true := by
        rw [henv] at h0; simpa [attemptFailing] using h0
      rw [if_pos herr]
      by_cases hf : f = 0
      · subst hf; simp [henv, attemptText]
      · rw [if_neg hf]
        rw [ih (a + 1) (by omega) (fun i hi => by
          have h3 := hfail (i + 1) (by omega)
          have h4 : a + (i + 1) = a + 1 + i := by omega
          rwa [h4] at h3)]
        have h5 : a + 1 + f - 1 = a + (f + 1) - 1 := by omega
        rw [h5]
    | raises msg =>
      dsimp only
      by_cases hf : f = 0
      · subst hf; simp [henv, attemptText]
      · rw [if_neg hf]
        rw [ih (a + 1) (by omega) (fun i hi => by
          have h3 := hfail (i + 1) (by omega)
          have h4 : a + (i + 1) = a + 1 + i := by omega
          rwa [h4] at h3)]
        have h5 : a + 1 + f - 1 = a + (f + 1) - 1 := by omega
        rw [h5]

/-! ## Per-setting lemmas for the smart configuration engine -/

theorem skip_numeric (env : ModemScript) (s : CfgState) (cmd : String)
    (desired : Int) (pat : String → Option String) (resp : String)
    (hq : env s.calls = (true, resp))
    (hp : parsedNum pat resp = some desired) :
    check_set_verify_numeric env cmd desired pat s =
      (true, ⟨s.calls + 1, s.sent ++ [cmd ++ "?"],
        bumpSkipped (bumpChecked s.stats)⟩) := by
  unfold check_set_verify_numeric execCmd
  dsimp only
  rw [hq]
  dsimp only
  rw [hp]
  simp

theorem skip_qopscfg (env : ModemScript) (s : CfgState) (parameter : String)
    (desired : Int) (resp : String)
    (hq : env s.calls = (true, resp))
    (hp : parsedNum (reSearchNum "+QOPSCFG:" ("\"" ++ parameter ++ "\",")) resp =
      some desired) :
    check_set_verify_qopscfg env parameter desired s =
      (true, ⟨s.calls + 1, s.sent ++ ["AT+QOPSCFG=\"" ++ parameter ++ "\""],
        bumpSkipped (bumpChecked s.stats)⟩) := by
  unfold check_set_verify_qopscfg execCmd
  dsimp only
  rw [hq]
  dsimp only
  rw [hp]
  simp

theorem skip_qgps_int (env : ModemScript) (s : CfgState) (setting : String)
    (desired : Int) (resp : String)
    (hq : env s.calls = (true, resp))
    (hp : parsedNum (reSearchNum "+QGPSCFG:" ("\"" ++ setting ++ "\",")) resp =
      some desired) :
    configure_qgpscfg_setting_int env setting desired s =
      (true, ⟨s.calls + 1, s.sent ++ ["AT+QGPSCFG=\"" ++ setting ++ "\""],
        bumpSkipped (bumpChecked s.stats)⟩) := by
  unfold configure_qgpscfg_setting_int execCmd
  dsimp only
  rw [hq]
  dsimp only
  rw [hp]
  simp

theorem skip_qgps_str (env : ModemScript) (s : CfgState) (setting : String)
    (desired : String) (resp : String)
    (hq : env s.calls = (true, resp))
    (hp : reSearchQgpsStr setting resp = some desired) :
    configure_qgpscfg_setting_str env setting desired s =
      (true, ⟨s.calls + 1, s.sent ++ ["AT+QGPSCFG=\"" ++ setting ++ "\""],
        bumpSkipped (bumpChecked s.stats)⟩) := by
  unfold configure_qgpscfg_setting_str execCmd
  dsimp only
  rw [hq]
  dsimp only
  rw [hp]
  simp

theorem proceed_numeric (env : ModemScript) (s : CfgState) (cmd : String)
    (desired : Int) (pat : String → Option String) (resp : String)
    (hq : env s.calls = (true, resp))
    (hp : parsedNum pat resp = none) :
    ((check_set_verify_numeric env cmd desired pat s).2).sent =
      s.sent ++ [cmd ++ "?", cmd ++ "=" ++ toString desired] := by
  unfold check_set_verify_numeric execCmd
  dsimp only
  rw [hq]
  dsimp only
  rw [hp]
  rw [if_neg (by simp : ¬(none : Option Int) = some desired)]
  cases (env (s.calls + 1)).1 <;> simp

theorem proceed_qopscfg (env : ModemScript) (s : CfgState) (parameter : String)
    (desired : Int) (resp : String)
    (hq : env s.calls = (true, resp))
    (hp : parsedNum (reSearchNum "+QOPSCFG:" ("\"" ++ parameter ++ "\",")) resp =
      none) :
    ((check_set_verify_qopscfg env parameter desired s).2).sent =
      s.sent ++ ["AT+QOPSCFG=\"" ++ parameter ++ "\"",
        "AT+QOPSCFG=\"" ++ parameter ++ "\"," ++ toString desired] := by
  unfold check_set_verify_qopscfg execCmd
  dsimp only
  rw [hq]
  dsimp only
  rw [hp]
  rw [if_neg (by simp : ¬(none : Option Int) = some desired)]
  cases (env (s.calls + 1)).1 <;> simp

theorem proceed_qgps_int (env : ModemScript) (s : CfgState) (setting : String)
    (desired : Int) (resp : String)
    (hq : env s.calls = (true, resp))
    (hp : parsedNum (reSearchNum "+QGPSCFG:" ("\"" ++ setting ++ "\",")) resp =
      none) :
    ((configure_qgpscfg_setting_int env setting desired s).2).sent =
      s.sent ++ ["AT+QGPSCFG=\"" ++ setting ++ "\"",
        "AT+QGPSCFG=\"" ++ setting ++ "\"," ++ toString desired] := by
  unfold configure_qgpscfg_setting_int execCmd
  dsimp only
  rw [hq]
  dsimp only
  rw [hp]
  rw [if_neg (by simp : ¬(none : Option Int) = some desired)]
  cases (env (s.calls + 1)).1 <;> simp

theorem proceed_qgps_str (env : ModemScript) (s : CfgState) (setting : String)
    (desired : String) (resp : String)
    (hq : env s.calls = (true, resp))
    (hp : reSearchQgpsStr setting resp = none) :
    ((configure_qgpscfg_setting_str env setting desired s).2).sent =
      s.sent ++ ["AT+QGPSCFG=\"" ++ setting ++ "\"",
        "AT+QGPSCFG=\"" ++ setting ++ "\",\"" ++ desired ++ "\""] := by
  unfold configure_qgpscfg_setting_str execCmd
  dsimp only
  rw [hq]
  dsimp only
  rw [hp]
  rw [if_neg (by simp : ¬(none : Option String) = some desired)]
  cases (env (s.calls + 1)).1 <;> simp

theorem counters_numeric (env : ModemScript) (s : CfgState) (cmd : String)
    (desired : Int) (pat : String → Option String) :
    ((check_set_verify_numeric env cmd desired pat s).2).stats.checked =
        s.stats.checked + 1 ∧
      OneOutcomeBump s.stats
        ((check_set_verify_numeric env cmd desired pat s).2).stats := by
  unfold check_set_verify_numeric execCmd
  dsimp only
  split
  · simp [bumpChecked, bumpFailed, bumpSkipped, bumpChanged, OneOutcomeBump]
  · split
    · simp [bumpChecked, bumpFailed, bumpSkipped, bumpChanged, OneOutcomeBump]
    · split
      · simp [bumpChecked, bumpFailed, bumpSkipped, bumpChanged, OneOutcomeBump]
      · simp [bumpChecked, bumpFailed, bumpSkipped, bumpChanged, OneOutcomeBump]

theorem counters_qopscfg (env : ModemScript) (s : CfgState) (parameter : String)
    (desired : Int) :
    ((check_set_verify_qopscfg env parameter desired s).2).stats.checked =
        s.stats.checked + 1 ∧
      OneOutcomeBump s.stats
        ((check_set_verify_qopscfg env parameter desired s).2).stats := by
  unfold check_set_verify_qopscfg execCmd
  dsimp only
  split
  · simp [bumpChecked, bumpFailed, bumpSkipped, bumpChanged, OneOutcomeBump]
  · split
    · simp [bumpChecked, bumpFailed, bumpSkipped, bumpChanged, OneOutcomeBump]
    · split
      · simp [bumpChecked, bumpFailed, bumpSkipped, bumpChanged, OneOutcomeBump]
      · simp [bumpChecked, bumpFailed, bumpSkipped, bumpChanged, OneOutcomeBump]

theorem counters_qgps_int (env : ModemScript) (s : CfgState) (setting : String)
    (desired : Int) :
    ((configure_qgpscfg_setting_int env setting desired s).2).stats.checked =
        s.stats.checked + 1 ∧
      OneOutcomeBump s.stats
        ((configure_qgpscfg_setting_int env setting desired s).2).stats := by
  unfold configure_qgpscfg_setting_int execCmd
  dsimp only
  split
  · simp [bumpChecked, bumpFailed, bumpSkipped, bumpChanged, OneOutcomeBump]
  · split
    · simp [bumpChecked, bumpFailed, bumpSkipped, bumpChanged, OneOutcomeBump]
    · split
      · simp [bumpChecked, bumpFailed, bumpSkipped, bumpChanged, OneOutcomeBump]
      · simp [bumpChecked, bumpFailed, bumpSkipped, bumpChanged, OneOutcomeBump]

theorem counters_qgps_str (env : ModemScript) (s : CfgState) (setting : String)
    (desired : String) :
    ((configure_qgpscfg_setting_str env setting desired s).2).stats.checked =
        s.stats.checked + 1 ∧
      OneOutcomeBump s.stats
        ((configure_qgpscfg_setting_str env setting desired s).2).stats := by
  unfold configure_qgpscfg_setting_str execCmd
  dsimp only
  split
  · simp [bumpChecked, bumpFailed, bumpSkipped, bumpChanged, OneOutcomeBump]
  · split
    · simp [bumpChecked, bumpFailed, bumpSkipped, bumpChanged, OneOutcomeBump]
    · split
      · simp [bumpChecked, bumpFailed, bumpSkipped, bumpChanged, OneOutcomeBump]
      · simp [bumpChecked, bumpFailed, bumpSkipped, bumpChanged, OneOutcomeBump]

theorem counters_rawdata (env : ModemScript) (s : CfgState) (config_value : String) :
    ((configure_qgpscfg_raw_data env config_value s).2).stats.checked =
        s.stats.checked + 1 ∧
      OneOutcomeBump s.stats
        ((configure_qgpscfg_raw_data env config_value s).2).stats := by
  unfold configure_qgpscfg_raw_data execCmd
  dsimp only
  split
  · simp [bumpChecked, bumpFailed, bumpSkipped, bumpChanged, OneOutcomeBump]
  · split
    · simp [bumpChecked, bumpFailed, bumpSkipped, bumpChanged, OneOutcomeBump]
    · split
      · simp [bumpChecked, bumpFailed, bumpSkipped, bumpChanged, OneOutcomeBump]
      · simp [bumpChecked, bumpFailed, bumpSkipped, bumpChanged, OneOutcomeBump]

theorem counters_plmn (env : ModemScript) (s : CfgState) :
    ((configure_forbidden_plmn_clear env s).2).stats.checked =
        s.stats.checked + 1 ∧
      OneOutcomeBump s.stats
        ((configure_forbidden_plmn_clear env s).2).stats := by
  unfold configure_forbidden_plmn_clear execCmd
  dsimp only
  split
  · simp [bumpChecked, bumpFailed, bumpSkipped, bumpChanged, OneOutcomeBump]
  · split
    · split
      · simp [bumpChecked, bumpFailed, bumpSkipped, bumpChanged, OneOutcomeBump]
      · simp [bumpChecked, bumpFailed, bumpSkipped, bumpChanged, OneOutcomeBump]
    · simp [bumpChecked, bumpFailed, bumpSkipped, bumpChanged, OneOutcomeBump]

/-! ## The claims -/

/-- Claim C1.  The spec demands that no decoder ever lets an exception
escape; the code violates it: `int(status_part)` at parser.py line 43 is not
inside a `try`, so decoding `AT+CREG?` against a response whose
registration-status field is not an integer raises a `ValueError` out of
`parse_cell_info` regardless of the clock reading.  (Every other numeric
conversion in the decoders is guarded; the spec is the evident intent.) -/
theorem creg_malformed_status_raises (now : String) :
    parse_cell_info "AT+CREG?" "AT+CREG?\r\n+CREG: 0,x\r\nOK\r\n" now =
      .error "ValueError: invalid literal for int() with base 10: x" := rfl

/-- Claim C2, counterexample.  `execute_command` returns only the pair
`(success, raw_text)`; it cannot carry the attempt count: a run that failed
after one attempt (`retries = 0`) and a run that failed after two attempts
(`retries = 1`) return identical results. -/
theorem execute_result_carries_no_attempt_count :
    execute_command envAllError "AT+CSQ" 0 = execute_command envAllError "AT+CSQ" 1 ∧
    executeAttempts envAllError "AT+CSQ" 0 = 1 ∧
    executeAttempts envAllError "AT+CSQ" 1 = 2 := by decide

/-- Claim C2, amended.  When the executor exhausts its retries — every
allowed attempt fails by device-reported `ERROR` token or by exception —
`execute_command` returns `success = false` together with the last raw
response text (or the exception message); the attempt count is kept in a
local variable and is not part of the returned value. -/
theorem execute_command_exhaustion_result (env : Transport) (command : String)
    (R : Nat) (hfail : ∀ i, i ≤ R → attemptFailing (env i) = true) :
    execute_command env command R = (false, attemptText (env R)) := by
  unfold execute_command
  have h := execAux_exhaust env (R + 1) 0 (by omega)
    (fun i hi => by simpa using hfail i (by omega))
  simpa using h

/-- Witness for `execute_command_exhaustion_result` at a transport that
always reports `ERROR`, with `retries = 2`. -/
theorem execute_command_exhaustion_result_witness :
    execute_command envAllError "AT" 2 = (false, "ERROR") :=
  execute_command_exhaustion_result envAllError "AT" 2 (fun _ _ => rfl)

/-- Claim C3.  For every command and every retry bound `R`, the executor
makes at most `R + 1` transmission attempts; the retry loop is bounded
(modelled by the total function `execAux` on the fuel `R + 1 - attempt`),
whether attempts fail by device-reported `ERROR` token or by a transport
exception. -/
theorem execute_command_attempt_bound (env : Transport) (command : String)
    (R : Nat) : executeAttempts env command R ≤ R + 1 :=
  execAttemptCount_le env (R + 1) 0

/-- Claim C4.  For each per-setting configure method, when the query
succeeds and its response parses to the desired value, the run sends the
query command only (no write-form `Set` command), records the `skipped`
outcome, and returns success. -/
theorem smart_config_skip_on_match (env : ModemScript) (s : CfgState)
    (resp : String) (hq : env s.calls = (true, resp)) :
    (∀ (cmd : String) (desired : Int) (pat : String → Option String),
      parsedNum pat resp = some desired →
      check_set_verify_numeric env cmd desired pat s =
        (true, ⟨s.calls + 1, s.sent ++ [cmd ++ "?"],
          bumpSkipped (bumpChecked s.stats)⟩)) ∧
    (∀ (parameter : String) (desired : Int),
      parsedNum (reSearchNum "+QOPSCFG:" ("\"" ++ parameter ++ "\",")) resp =
        some desired →
      check_set_verify_qopscfg env parameter desired s =
        (true, ⟨s.calls + 1, s.sent ++ ["AT+QOPSCFG=\"" ++ parameter ++ "\""],
          bumpSkipped (bumpChecked s.stats)⟩)) ∧
    (∀ (setting : String) (desired : Int),
      parsedNum (reSearchNum "+QGPSCFG:" ("\"" ++ setting ++ "\",")) resp =
        some desired →
      configure_qgpscfg_setting_int env setting desired s =
        (true, ⟨s.calls + 1, s.sent ++ ["AT+QGPSCFG=\"" ++ setting ++ "\""],
          bumpSkipped (bumpChecked s.stats)⟩)) ∧
    (∀ (setting desired : String),
      reSearchQgpsStr setting resp = some desired →
      configure_qgpscfg_setting_str env setting desired s =
        (true, ⟨s.calls + 1, s.sent ++ ["AT+QGPSCFG=\"" ++ setting ++ "\""],
          bumpSkipped (bumpChecked s.stats)⟩)) :=
  ⟨fun cmd desired pat hp => skip_numeric env s cmd desired pat resp hq hp,
   fun parameter desired hp => skip_qopscfg env s parameter desired resp hq hp,
   fun setting desired hp => skip_qgps_int env s setting desired resp hq hp,
   fun setting desired hp => skip_qgps_str env s setting desired resp hq hp⟩

/-- Witness for `smart_config_skip_on_match`: against a modem reporting
`+CMEE: 2`, configuring `AT+CMEE` to `2` sends only the query and skips. -/
theorem smart_config_skip_on_match_witness :
    check_set_verify_numeric envCmeeTwo "AT+CMEE" 2 (reSearchNum "+CMEE:" "")
        CfgState.init =
      (true, ⟨1, ["AT+CMEE?"], ⟨1, 0, 1, 0⟩⟩) :=
  (smart_config_skip_on_match envCmeeTwo CfgState.init "+CMEE: 2" rfl).1
    "AT+CMEE" 2 (reSearchNum "+CMEE:" "") rfl

/-- Claim C5, counterexample.  A setting transition does not increment
exactly one of the four outcome counters: a failing `AT+CMEE` query
transition increments two of them (`checked` and `failed`). -/
theorem setting_transition_bumps_two_counters :
    countersBumped Stats.init
        ((configure_cmee envCfgFail 2 CfgState.init).2).stats = 2 ∧
      countersBumped Stats.init
        ((configure_cmee envCfgFail 2 CfgState.init).2).stats ≠ 1 := by decide

/-- Claim C5, amended.  Every setting transition of the engine increments
the `checked` counter by one and exactly one of the three outcome counters
`changed`/`skipped`/`failed` by one (all six per-setting methods). -/
theorem setting_transition_counter_discipline :
    (∀ (env : ModemScript) (s : CfgState) (cmd : String) (desired : Int)
        (pat : String → Option String),
      ((check_set_verify_numeric env cmd desired pat s).2).stats.checked =
          s.stats.checked + 1 ∧
        OneOutcomeBump s.stats
          ((check_set_verify_numeric env cmd desired pat s).2).stats) ∧
    (∀ (env : ModemScript) (s : CfgState) (parameter : String) (desired : Int),
      ((check_set_verify_qopscfg env parameter desired s).2).stats.checked =
          s.stats.checked + 1 ∧
        OneOutcomeBump s.stats
          ((check_set_verify_qopscfg env parameter desired s).2).stats) ∧
    (∀ (env : ModemScript) (s : CfgState) (setting : String) (desired : Int),
      ((configure_qgpscfg_setting_int env setting desired s).2).stats.checked =
          s.stats.checked + 1 ∧
        OneOutcomeBump s.stats
          ((configure_qgpscfg_setting_int env setting desired s).2).stats) ∧
    (∀ (env : ModemScript) (s : CfgState) (setting desired : String),
      ((configure_qgpscfg_setting_str env setting desired s).2).stats.checked =
          s.stats.checked + 1 ∧
        OneOutcomeBump s.stats
          ((configure_qgpscfg_setting_str env setting desired s).2).stats) ∧
    (∀ (env : ModemScript) (s : CfgState) (config_value : String),
      ((configure_qgpscfg_raw_data env config_value s).2).stats.checked =
          s.stats.checked + 1 ∧
        OneOutcomeBump s.stats
          ((configure_qgpscfg_raw_data env config_value s).2).stats) ∧
    (∀ (env : ModemScript) (s : CfgState),
      ((configure_forbidden_plmn_clear env s).2).stats.checked =
          s.stats.checked + 1 ∧
        OneOutcomeBump s.stats
          ((configure_forbidden_plmn_clear env s).2).stats) :=
  ⟨counters_numeric, counters_qopscfg, counters_qgps_int, counters_qgps_str,
   counters_rawdata, counters_plmn⟩

/-- Claim C6.  Decoding the raw response `"AT+CSQ\r\n+CSQ: 20,3\r\nOK\r\n"`
for the command `AT+CSQ` yields (besides the always-present timestamp entry)
exactly the fields `rssi = -113 + 2·20 = -73`, `rssi_raw = 20`, `ber = 3`,
the dBm value coming from the documented offset formula. -/
theorem csq_roundtrip_decodes (now : String) :
    parse_cell_info "AT+CSQ" "AT+CSQ\r\n+CSQ: 20,3\r\nOK\r\n" now =
        .ok [("timestamp", .s now), ("rssi", .i (-113 + 2 * 20)),
             ("rssi_raw", .i 20), ("ber", .i 3)] ∧
      (-113 + 2 * 20 : Int) = -73 :=
  ⟨rfl, rfl⟩

/-- Claim C7, counterexample.  Decoding is not a pure function of
`(command, raw_text)`: the decoder stamps the wall clock into the result, so
two calls at different clock readings yield different FieldMaps. -/
theorem decode_differs_across_clock_readings :
    parse_cell_info "AT+CSQ" "+CSQ: 20,3" "2024-01-01T00:00:00" ≠
      parse_cell_info "AT+CSQ" "+CSQ: 20,3" "2024-01-01T00:00:01" := by decide

/-- Claim C7, amended.  Decoding with identical `(command, raw_text)` is
deterministic up to the timestamp entry: the two calls either raise the same
error, or return maps that agree on everything except the head `timestamp`
entry, which records each call's clock reading. -/
theorem decode_deterministic_modulo_timestamp (command response t1 t2 : String) :
    (∃ e, parse_cell_info command response t1 = .error e ∧
          parse_cell_info command response t2 = .error e) ∨
    (∃ rest, parse_cell_info command response t1 =
          .ok (("timestamp", .s t1) :: rest) ∧
        parse_cell_info command response t2 =
          .ok (("timestamp", .s t2) :: rest)) := by
  rw [parse_cell_info_shape, parse_cell_info_shape]
  cases cellFields command response with
  | error e => exact .inl ⟨e, rfl, rfl⟩
  | ok rest => exact .inr ⟨rest, rfl, rfl⟩

/-- Claim C8.  For each per-setting configure method, when the query
succeeds but its response cannot be parsed for a current value, the engine
still issues the write-form `Set` command (current value unknown) rather
than abandoning the setting: exactly the query and the set command are
sent. -/
theorem smart_config_sets_when_query_unparsable (env : ModemScript)
    (s : CfgState) (resp : String) (hq : env s.calls = (true, resp)) :
    (∀ (cmd : String) (desired : Int) (pat : String → Option String),
      parsedNum pat resp = none →
      ((check_set_verify_numeric env cmd desired pat s).2).sent =
        s.sent ++ [cmd ++ "?", cmd ++ "=" ++ toString desired]) ∧
    (∀ (parameter : String) (desired : Int),
      parsedNum (reSearchNum "+QOPSCFG:" ("\"" ++ parameter ++ "\",")) resp =
        none →
      ((check_set_verify_qopscfg env parameter desired s).2).sent =
        s.sent ++ ["AT+QOPSCFG=\"" ++ parameter ++ "\"",
          "AT+QOPSCFG=\"" ++ parameter ++ "\"," ++ toString desired]) ∧
    (∀ (setting : String) (desired : Int),
      parsedNum (reSearchNum "+QGPSCFG:" ("\"" ++ setting ++ "\",")) resp =
        none →
      ((configure_qgpscfg_setting_int env setting desired s).2).sent =
        s.sent ++ ["AT+QGPSCFG=\"" ++ setting ++ "\"",
          "AT+QGPSCFG=\"" ++ setting ++ "\"," ++ toString desired]) ∧
    (∀ (setting desired : String),
      reSearchQgpsStr setting resp = none →
      ((configure_qgpscfg_setting_str env setting desired s).2).sent =
        s.sent ++ ["AT+QGPSCFG=\"" ++ setting ++ "\"",
          "AT+QGPSCFG=\"" ++ setting ++ "\",\"" ++ desired ++ "\""]) :=
  ⟨fun cmd desired pat hp => proceed_numeric env s cmd desired pat resp hq hp,
   fun parameter desired hp => proceed_qopscfg env s parameter desired resp hq hp,
   fun setting desired hp => proceed_qgps_int env s setting desired resp hq hp,
   fun setting desired hp => proceed_qgps_str env s setting desired resp hq hp⟩

/-- Witness for `smart_config_sets_when_query_unparsable`: a successful but
unparsable `AT+CMEE?` response still leads to `AT+CMEE=2` being sent. -/
theorem smart_config_sets_when_query_unparsable_witness :
    ((check_set_verify_numeric envGarbage "AT+CMEE" 2 (reSearchNum "+CMEE:" "")
        CfgState.init).2).sent = ["AT+CMEE?", "AT+CMEE=2"] :=
  (smart_config_sets_when_query_unparsable envGarbage CfgState.init "garbage"
      rfl).1 "AT+CMEE" 2 (reSearchNum "+CMEE:" "") rfl

/-- Claim C9.  In a GNSS batch with GNSS enabled, the positioning power-on
command `AT+QGPS=1` is the last command sent — it is issued after all GNSS
parameter settings, unconditionally, for every modem behaviour (including
runs in which parameter changes failed). -/
theorem gnss_power_on_issued_last (env : ModemScript) (gnss : GnssConfig)
    (s : CfgState) (h : gnss.enabled = true) :
    ∃ l, ((configure_gnss_settings env gnss s).2).sent = l ++ ["AT+QGPS=1"] := by
  unfold configure_gnss_settings
  rw [h]
  exact ⟨_, rfl⟩

/-- Witness for `gnss_power_on_issued_last` on an all-failing modem. -/
theorem gnss_power_on_issued_last_witness :
    ∃ l, ((configure_gnss_settings envCfgFail gnssEnabledOnly
        CfgState.init).2).sent = l ++ ["AT+QGPS=1"] :=
  gnss_power_on_issued_last envCfgFail gnssEnabledOnly CfgState.init rfl

/-- Claim C10, counterexample.  The cell-info decoder does not return a
(timestamped) FieldMap for every input: on a malformed `AT+CGREG?`
registration status it raises instead of returning a map. -/
theorem cell_decoder_no_map_on_malformed_status :
    parse_cell_info "AT+CGREG?" "+CGREG: 0,z" "2024-01-01T00:00:00" =
      .error "ValueError: invalid literal for int() with base 10: z" := by decide

/-- Claim C10, amended.  Whenever `parse_cell_info` returns a FieldMap, the
map contains the `timestamp` key, set from the clock reading at decode time
(even when no decoder matches the command), and is therefore never empty. -/
theorem cell_decoder_ok_map_has_timestamp (command response now : String)
    (m : FieldMap) (h : parse_cell_info command response now = .ok m) :
    fmLookup "timestamp" m = some (.s now) ∧ m ≠ [] := by
  rw [parse_cell_info_shape] at h
  cases hc : cellFields command response with
  | error e => rw [hc] at h; simp [Except.map] at h
  | ok rest =>
    rw [hc] at h
    simp only [Except.map] at h
    injection h with h2
    subst h2
    exact ⟨by simp [fmLookup], by simp⟩

/-- Witness for `cell_decoder_ok_map_has_timestamp` at an unmatched command
with an empty response. -/
theorem cell_decoder_ok_map_has_timestamp_witness :
    fmLookup "timestamp" [("timestamp", Value.s "2024-01-01T00:00:00")] =
        some (.s "2024-01-01T00:00:00") ∧
      ([("timestamp", Value.s "2024-01-01T00:00:00")] : FieldMap) ≠ [] :=
  cell_decoder_ok_map_has_timestamp "AT" "" "2024-01-01T00:00:00" _ rfl
